import Mathlib

/-!
Verification of the scamu NES emulator core (`src/src`): the 6502 CPU
operations, addressing-mode factories, instruction table, CPU bus, cartridge
parsing and mappers, and the disassembler front end.

Machine integers are modelled as `Nat`.  Rust's plain `+`/`-`/`*` on `u16`
(which are program errors on overflow: a panic under the overflow checks of
the dev/test profile the repository is built with) are modelled as checked,
`Option`-valued operations (`u16chk`); `wrapping_add`/`wrapping_sub` and
`as`-casts are modelled with explicit `% 2^w`.  Stateful code is explicit
state passing; fallible code returns `Option`/`Except`.
-/

/-- Checked `u16` result: `some` exactly when the value fits in 16 bits
(Rust unchecked `u16` arithmetic is a program error on overflow). -/
def u16chk (n : Nat) : Option Nat :=
  if n ≤ 0xFFFF then some n else none

/-- Checked `u16` subtraction (Rust `-` on `u16` underflows below zero). -/
def u16sub (a b : Nat) : Option Nat :=
  if b ≤ a then some (a - b) else none

/-- Checked `u8` subtraction (Rust `-` on `u8`). -/
def u8sub (a b : Nat) : Option Nat :=
  if b ≤ a then some (a - b) else none

/-- Rust `as i8` applied to a `u8` value: reinterpret the low 8 bits as a
signed byte. -/
def toI8 (v : Nat) : Int :=
  if v % 256 < 128 then ((v % 256 : Nat) : Int) else ((v % 256 : Nat) : Int) - 256

/-- Rust `as u16` applied to an `i32`: the low 16 bits of the two's
complement representation. -/
def i32toU16 (v : Int) : Nat :=
  (v % 65536).toNat

/-- Rust `u8::wrapping_add`. -/
def u8wadd (a b : Nat) : Nat := (a + b) % 256

/-- Rust `u8::wrapping_sub`. -/
def u8wsub (a b : Nat) : Nat := (a + 256 - b % 256) % 256

/-- Rust `u16::wrapping_add`. -/
def u16wadd (a b : Nat) : Nat := (a + b) % 65536

/-- Rust `u16::wrapping_sub`. -/
def u16wsub (a b : Nat) : Nat := (a + 65536 - b % 65536) % 65536

/-- Rust `!x` on a `u8`: bitwise complement within 8 bits. -/
def u8not (x : Nat) : Nat := x ^^^ 255

/- CPU status flag constants, from `src/src/hardware/constants.rs`
(`cpu_flags`). -/

def CARRY : Nat := 0x01
def ZERO : Nat := 0x02
def INTERRUPT_DISABLE : Nat := 0x04
def DECIMAL_MODE : Nat := 0x08
def BREAK : Nat := 0x10
def UNUSED : Nat := 0x20
def OVERFLOW : Nat := 0x40
def NEGATIVE : Nat := 0x80

/-- CPU register state, from `src/src/hardware/cpu/mod.rs` (`struct Cpu`). -/
structure Cpu where
  accumulator : Nat
  x : Nat
  y : Nat
  program_counter : Nat
  stack_pointer : Nat
  status : Nat
  cycles_left : Nat
  total_cycles : Nat
  is_resetting : Bool
  is_jammed : Bool
deriving Repr

/-- `Cpu::new`. -/
def Cpu.new : Cpu where
  accumulator := 0
  x := 0
  y := 0
  program_counter := 0
  stack_pointer := 0xFD
  status := UNUSED ||| INTERRUPT_DISABLE
  cycles_left := 0
  total_cycles := 7
  is_resetting := false
  is_jammed := false

/-- `Cpu::set_flag`. -/
def Cpu.set_flag (c : Cpu) (flag : Nat) (enabled : Bool) : Cpu :=
  if enabled then { c with status := c.status ||| flag }
  else { c with status := c.status &&& (flag ^^^ 255) }

/-- `Cpu::get_flag`. -/
def Cpu.get_flag (c : Cpu) (flag : Nat) : Bool :=
  decide (0 < c.status &&& flag)

/-- The mapper-0 cartridge state as seen from the CPU bus.  The bank counts
come from the parsed header (`M000` in
`src/src/hardware/cartrige/mappers/implementations.rs`); `prg` is the PRG ROM
byte array as a total function. -/
structure Cart0 where
  prg_size : Nat
  prg : Nat → Nat

/-- `M000::map_read` restricted to `MemoryAccess::CpuAccess`, from
`src/src/hardware/cartrige/mappers/implementations.rs`.  `none` is the
mapper's "unmapped" answer.  The `address - 0x8000` subtraction is guarded by
the `address < 0x8000` arm, so it never underflows. -/
def Cart0.map_read (c : Cart0) (address : Nat) : Option Nat :=
  if address < 0x8000 then none
  else
    let offset := address - 0x8000
    if c.prg_size = 1 then some (offset &&& 0x3FFF) else some offset

/-- Modelled from the spec: `Cartrige::read(MemoryAccess) -> Option<u8>`, the
function `CpuBus::read` calls on the cartridge, is missing from `src/` (the
snapshot only has the older `u16`-based `Cartrige::read`).  Spec section 7:
cartridge reads never fail; a read the mapper leaves unmapped yields `None`
and the bus substitutes its last-read byte.  A mapped read returns the PRG
byte at the mapper's flat offset. -/
def Cart0.readCpu (c : Cart0) (address : Nat) : Option Nat :=
  (c.map_read address).map fun offset => c.prg offset

/-- CPU bus state, from `src/src/hardware/cpu_bus.rs` (`struct CpuBus`).
`cpu_ram` is the 2 KiB RAM as a total function on indices `0..0x800`;
`last_read` is the open-bus cell.  The cartridge slot is instantiated with
the mapper-0 view (`Cart0`), the only mapper the CPU-level claims need;
mapper 2 is embedded separately below. -/
structure CpuBus where
  cpu_ram : Nat → Nat
  cartrige : Option Cart0
  last_read : Nat

/-- `CpuBus::read`.  Returns the byte and the bus (whose `last_read` cell the
read updates).  `CPU_RAM_SIZE - 1 = 0x7FF`. -/
def CpuBus.read (b : CpuBus) (address : Nat) : Nat × CpuBus :=
  let result :=
    if address < 0x2000 then b.cpu_ram (address &&& 0x7FF)
    else if address < 0x4000 then 0
    else if address < 0x4020 then 0xFF
    else
      match b.cartrige with
      | some c => (c.readCpu address).getD b.last_read
      | none => 0
  (result, { b with last_read := result })

/-- `CpuBus::write`.  `M000::map_write` ignores every CPU write, so the
cartridge arm leaves the bus unchanged. -/
def CpuBus.write (b : CpuBus) (address value : Nat) : CpuBus :=
  if address < 0x2000 then
    { b with cpu_ram := fun i => if i = address &&& 0x7FF then value else b.cpu_ram i }
  else b

/-- `CpuBus::read_u16`.  The `address + 1` is an unchecked `u16` addition. -/
def CpuBus.read_u16 (b : CpuBus) (address : Nat) : Option (Nat × CpuBus) :=
  let r1 := b.read address
  (u16chk (address + 1)).map fun a1 =>
    let r2 := r1.2.read a1
    ((r2.1 <<< 8) ||| r1.1, r2.2)

/-- `CpuBus::write_u16`: stores the two bytes straight into the RAM array
without the mirroring mask; the `cpu_ram[address]` / `cpu_ram[address + 1]`
indexing (array length 0x800) is out of bounds — a panic — whenever either
index reaches 0x800, and `address + 1` is itself an unchecked `u16`
addition. -/
def CpuBus.write_u16 (b : CpuBus) (address value : Nat) : Option CpuBus :=
  let value_low := value &&& 0x00FF
  let value_high := value >>> 8
  (u16chk (address + 1)).bind fun a1 =>
    if address < 0x800 ∧ a1 < 0x800 then
      some { b with cpu_ram := fun i =>
               if i = a1 then value_high
               else if i = address then value_low
               else b.cpu_ram i }
    else none

/-- `Cpu::push_stack`. -/
def Cpu.push_stack (c : Cpu) (value : Nat) (b : CpuBus) : Cpu × CpuBus :=
  let b := b.write (0x100 + c.stack_pointer) value
  ({ c with stack_pointer := u8wsub c.stack_pointer 1 }, b)

/-- `Cpu::pop_stack`. -/
def Cpu.pop_stack (c : Cpu) (b : CpuBus) : Nat × Cpu × CpuBus :=
  let c := { c with stack_pointer := u8wadd c.stack_pointer 1 }
  let r := b.read (0x100 + c.stack_pointer)
  (r.1, c, r.2)

/-- `Cpu::push_stack_u16`. -/
def Cpu.push_stack_u16 (c : Cpu) (value : Nat) (b : CpuBus) : Cpu × CpuBus :=
  let high := (value >>> 8) % 256
  let low := value % 256
  let p := c.push_stack high b
  p.1.push_stack low p.2

/-- `Cpu::pop_stack_u16`. -/
def Cpu.pop_stack_u16 (c : Cpu) (b : CpuBus) : Nat × Cpu × CpuBus :=
  let pl := c.pop_stack b
  let ph := pl.2.1.pop_stack pl.2.2
  ((ph.1 <<< 8) ||| pl.1, ph.2)

/-- `MemoryAddress` from
`src/src/hardware/cpu/addressing_modes/implementations.rs`. -/
structure MemoryAddress where
  value : Nat
  address : Nat
deriving Repr

/-- The four addressing-mode carriers of
`src/src/hardware/cpu/addressing_modes/implementations.rs`:
`ImplicitAddressingMode`, `AccumulatorAddressingMode`,
`MemoryAddressingMode` (which stores a resolved address) and
`RelativeAddressingMode`. -/
inductive MTarget where
  | implicit
  | accumulator
  | memory (address : Nat)
  | relative (address : Nat)
deriving Repr, DecidableEq

/-- An instantiated addressing mode: the common fields of the four
implementations (`cpu_program_counter_offset`, the mutable
`cpu_additional_cycles_required` counter, and the display string), plus the
carrier telling `read`/`write` where to go. -/
structure Mode where
  target : MTarget
  pc_offset : Nat
  extra : Nat
  display : String
deriving Repr

/-- `cpu_add_another_required_cycle`. -/
def Mode.addCycle (m : Mode) : Mode :=
  { m with extra := m.extra + 1 }

/-- `AddressingMode<u8>::read` per implementation.  (The implicit mode has no
`u8` instance in the source; the table never pairs it with a `u8` operation,
and it reads 0 here.) -/
def modeReadU8 (m : Mode) (c : Cpu) (b : CpuBus) : Nat × CpuBus :=
  match m.target with
  | .implicit => (0, b)
  | .accumulator => (c.accumulator, b)
  | .memory a => b.read a
  | .relative a => b.read a

/-- `AddressingMode<i8>::read` (the relative mode): the operand byte cast
with `as i8`. -/
def modeReadI8 (m : Mode) (c : Cpu) (b : CpuBus) : Int × CpuBus :=
  let r := modeReadU8 m c b
  (toI8 r.1, r.2)

/-- `AddressingMode<MemoryAddress>::read` (the memory mode). -/
def modeReadMA (m : Mode) (c : Cpu) (b : CpuBus) : MemoryAddress × CpuBus :=
  match m.target with
  | .memory a =>
    let r := b.read a
    (⟨r.1, a⟩, r.2)
  | _ => (⟨c.accumulator, 0⟩, b)

/-- `AddressingMode<u8>::write` per implementation. -/
def modeWriteU8 (m : Mode) (value : Nat) (c : Cpu) (b : CpuBus) : Cpu × CpuBus :=
  match m.target with
  | .implicit => (c, b)
  | .accumulator => ({ c with accumulator := value }, b)
  | .memory a => (c, b.write a value)
  | .relative a => (c, b.write a value)

/-- `AddressingMode<MemoryAddress>::write` (the memory mode): stores the
carried value at the mode's own resolved address. -/
def modeWriteMA (m : Mode) (ma : MemoryAddress) (c : Cpu) (b : CpuBus) : Cpu × CpuBus :=
  match m.target with
  | .memory a => (c, b.write a ma.value)
  | _ => (c, b)

/- The CPU operations, from `src/src/hardware/cpu/operations.rs`, in source
order.  Each is a state transformer on `(Cpu, CpuBus, Mode)`; `BRK` and `RTS`
are `Option`-valued because they perform unchecked `u16` `+= 1` increments of
the program counter (and `BRK` a `read_u16`). -/

def ADC (c : Cpu) (b : CpuBus) (m : Mode) : Cpu × CpuBus × Mode :=
  let r := modeReadU8 m c b
  let argument := r.1
  let b := r.2
  let result := c.accumulator + argument + (c.get_flag CARRY).toNat
  let c := c.set_flag CARRY (decide (0xFF < result))
  let c := c.set_flag ZERO (decide (result % 256 = 0))
  let c := c.set_flag OVERFLOW (decide (0 < ((result % 256) ^^^ c.accumulator) &&& ((result % 256) ^^^ argument) &&& 0x80))
  let c := c.set_flag NEGATIVE (decide (0 < (result % 256) &&& 0x80))
  ({ c with accumulator := result % 256 }, b, m)

def ALR (c : Cpu) (b : CpuBus) (m : Mode) : Cpu × CpuBus × Mode :=
  let r := modeReadU8 m c b
  let argument := r.1
  let b := r.2
  let arguemnt_and := c.accumulator &&& argument
  let result := arguemnt_and >>> 1
  let c := c.set_flag CARRY (decide (0 < arguemnt_and &&& 0x1))
  let c := c.set_flag ZERO (decide (result = 0))
  let c := c.set_flag NEGATIVE (decide (0 < result &&& 0x80))
  ({ c with accumulator := result }, b, m)

def ANC (c : Cpu) (b : CpuBus) (m : Mode) : Cpu × CpuBus × Mode :=
  let r := modeReadU8 m c b
  let argument := r.1
  let b := r.2
  let result := c.accumulator &&& argument
  let c := c.set_flag ZERO (decide (result = 0))
  let c := c.set_flag NEGATIVE (decide (0 < result &&& 0x80))
  let c := c.set_flag CARRY (decide (0 < result &&& 0x80))
  ({ c with accumulator := result }, b, m)

def AND (c : Cpu) (b : CpuBus) (m : Mode) : Cpu × CpuBus × Mode :=
  let r := modeReadU8 m c b
  let argument := r.1
  let b := r.2
  let result := c.accumulator &&& argument
  let c := c.set_flag ZERO (decide (result = 0))
  let c := c.set_flag NEGATIVE (decide (0 < result &&& 0x80))
  ({ c with accumulator := result }, b, m)

def ANE (c : Cpu) (b : CpuBus) (m : Mode) : Cpu × CpuBus × Mode :=
  (c, b, m)

def ARR (c : Cpu) (b : CpuBus) (m : Mode) : Cpu × CpuBus × Mode :=
  let r := modeReadU8 m c b
  let argument := r.1
  let b := r.2
  let anded := c.accumulator &&& argument
  let result0 := anded >>> 1
  let result := if c.get_flag CARRY then result0 ||| 0x80 else result0
  let c := c.set_flag ZERO (decide (result = 0))
  let c := c.set_flag NEGATIVE (decide (0 < result &&& 0x80))
  let c := c.set_flag CARRY (decide (0 < result &&& 0x40))
  let c := c.set_flag OVERFLOW (decide (0 < ((result >>> 6) &&& 1) ^^^ ((result >>> 5) &&& 1)))
  ({ c with accumulator := result }, b, m)

def ASL (c : Cpu) (b : CpuBus) (m : Mode) : Cpu × CpuBus × Mode :=
  let r := modeReadU8 m c b
  let argument := r.1
  let b := r.2
  let result := argument <<< 1
  let c := c.set_flag CARRY (decide (0xFF < result))
  let c := c.set_flag ZERO (decide (result &&& 0xFF = 0))
  let c := c.set_flag NEGATIVE (decide (0 < result &&& 0x80))
  let w := modeWriteU8 m (result % 256) c b
  (w.1, w.2, m)

/-- The shared `branch` helper: always one extra cycle, a second one when the
destination's page differs from the current program counter's.  The
`(pc as i32 + offset as i32) as u16` conversion wraps modulo 2^16. -/
def branch (c : Cpu) (m : Mode) (address : Int) : Cpu × Mode :=
  let m := m.addCycle
  let new_address := i32toU16 ((c.program_counter : Int) + address)
  let m := if new_address &&& 0xFF00 ≠ c.program_counter &&& 0xFF00 then m.addCycle else m
  ({ c with program_counter := new_address }, m)

def BCC (c : Cpu) (b : CpuBus) (m : Mode) : Cpu × CpuBus × Mode :=
  let r := modeReadI8 m c b
  let b := r.2
  if !(c.get_flag CARRY) then
    let br := branch c m r.1
    (br.1, b, br.2)
  else (c, b, m)

def BCS (c : Cpu) (b : CpuBus) (m : Mode) : Cpu × CpuBus × Mode :=
  let r := modeReadI8 m c b
  let b := r.2
  if c.get_flag CARRY then
    let br := branch c m r.1
    (br.1, b, br.2)
  else (c, b, m)

def BEQ (c : Cpu) (b : CpuBus) (m : Mode) : Cpu × CpuBus × Mode :=
  let r := modeReadI8 m c b
  let b := r.2
  if c.get_flag ZERO then
    let br := branch c m r.1
    (br.1, b, br.2)
  else (c, b, m)

def BIT (c : Cpu) (b : CpuBus) (m : Mode) : Cpu × CpuBus × Mode :=
  let r := modeReadU8 m c b
  let argument := r.1
  let b := r.2
  let c := c.set_flag ZERO (decide (c.accumulator &&& argument = 0))
  let c := c.set_flag NEGATIVE (decide (0 < argument &&& 0x80))
  let c := c.set_flag OVERFLOW (decide (0 < argument &&& 0x40))
  (c, b, m)

def BMI (c : Cpu) (b : CpuBus) (m : Mode) : Cpu × CpuBus × Mode :=
  let r := modeReadI8 m c b
  let b := r.2
  if c.get_flag NEGATIVE then
    let br := branch c m r.1
    (br.1, b, br.2)
  else (c, b, m)

def BNE (c : Cpu) (b : CpuBus) (m : Mode) : Cpu × CpuBus × Mode :=
  let r := modeReadI8 m c b
  let b := r.2
  if !(c.get_flag ZERO) then
    let br := branch c m r.1
    (br.1, b, br.2)
  else (c, b, m)

def BPL (c : Cpu) (b : CpuBus) (m : Mode) : Cpu × CpuBus × Mode :=
  let r := modeReadI8 m c b
  let b := r.2
  if !(c.get_flag NEGATIVE) then
    let br := branch c m r.1
    (br.1, b, br.2)
  else (c, b, m)

def BRK (c : Cpu) (b : CpuBus) (m : Mode) : Option (Cpu × CpuBus × Mode) :=
  let c := { c with is_resetting := true }
  (u16chk (c.program_counter + 1)).bind fun pc1 =>
  let c := { c with program_counter := pc1 }
  let c := c.set_flag INTERRUPT_DISABLE true
  let c := c.set_flag BREAK true
  let p := c.push_stack_u16 c.program_counter b
  let c := p.1
  let b := p.2
  let status := c.status ||| BREAK ||| UNUSED
  let p2 := c.push_stack status b
  let c := p2.1
  let b := p2.2
  (b.read_u16 0xFFFE).map fun r =>
    ({ c with program_counter := r.1 }, r.2, m)

def BVC (c : Cpu) (b : CpuBus) (m : Mode) : Cpu × CpuBus × Mode :=
  let r := modeReadI8 m c b
  let b := r.2
  if !(c.get_flag OVERFLOW) then
    let br := branch c m r.1
    (br.1, b, br.2)
  else (c, b, m)

def BVS (c : Cpu) (b : CpuBus) (m : Mode) : Cpu × CpuBus × Mode :=
  let r := modeReadI8 m c b
  let b := r.2
  if c.get_flag OVERFLOW then
    let br := branch c m r.1
    (br.1, b, br.2)
  else (c, b, m)

def CLC (c : Cpu) (b : CpuBus) (m : Mode) : Cpu × CpuBus × Mode :=
  (c.set_flag CARRY false, b, m)

def CLD (c : Cpu) (b : CpuBus) (m : Mode) : Cpu × CpuBus × Mode :=
  (c.set_flag DECIMAL_MODE false, b, m)

def CLI (c : Cpu) (b : CpuBus) (m : Mode) : Cpu × CpuBus × Mode :=
  (c.set_flag INTERRUPT_DISABLE false, b, m)

def CLV (c : Cpu) (b : CpuBus) (m : Mode) : Cpu × CpuBus × Mode :=
  (c.set_flag OVERFLOW false, b, m)

def CMP (c : Cpu) (b : CpuBus) (m : Mode) : Cpu × CpuBus × Mode :=
  let r := modeReadU8 m c b
  let argument := r.1
  let b := r.2
  let result := u8wsub c.accumulator argument
  let c := c.set_flag CARRY (decide (argument ≤ c.accumulator))
  let c := c.set_flag ZERO (decide (c.accumulator = argument))
  let c := c.set_flag NEGATIVE (decide (0 < result &&& 0x80))
  (c, b, m)

def CPX (c : Cpu) (b : CpuBus) (m : Mode) : Cpu × CpuBus × Mode :=
  let r := modeReadU8 m c b
  let argument := r.1
  let b := r.2
  let result := u8wsub c.x argument
  let c := c.set_flag CARRY (decide (argument ≤ c.x))
  let c := c.set_flag ZERO (decide (c.x = argument))
  let c := c.set_flag NEGATIVE (decide (0 < result &&& 0x80))
  (c, b, m)

def CPY (c : Cpu) (b : CpuBus) (m : Mode) : Cpu × CpuBus × Mode :=
  let r := modeReadU8 m c b
  let argument := r.1
  let b := r.2
  let result := u8wsub c.y argument
  let c := c.set_flag CARRY (decide (argument ≤ c.y))
  let c := c.set_flag ZERO (decide (c.y = argument))
  let c := c.set_flag NEGATIVE (decide (0 < result &&& 0x80))
  (c, b, m)

def DCP (c : Cpu) (b : CpuBus) (m : Mode) : Cpu × CpuBus × Mode :=
  let r := modeReadU8 m c b
  let result := u8wsub r.1 1
  let w := modeWriteU8 m result c r.2
  CMP w.1 w.2 m

def DEC (c : Cpu) (b : CpuBus) (m : Mode) : Cpu × CpuBus × Mode :=
  let r := modeReadU8 m c b
  let result := u8wsub r.1 1
  let c := c.set_flag ZERO (decide (result = 0))
  let c := c.set_flag NEGATIVE (decide (0 < result &&& 0x80))
  let w := modeWriteU8 m result c r.2
  (w.1, w.2, m)

def DEX (c : Cpu) (b : CpuBus) (m : Mode) : Cpu × CpuBus × Mode :=
  let result := u8wsub c.x 1
  let c := c.set_flag ZERO (decide (result = 0))
  let c := c.set_flag NEGATIVE (decide (0 < result &&& 0x80))
  ({ c with x := result }, b, m)

def DEY (c : Cpu) (b : CpuBus) (m : Mode) : Cpu × CpuBus × Mode :=
  let result := u8wsub c.y 1
  let c := c.set_flag ZERO (decide (result = 0))
  let c := c.set_flag NEGATIVE (decide (0 < result &&& 0x80))
  ({ c with y := result }, b, m)

def EOR (c : Cpu) (b : CpuBus) (m : Mode) : Cpu × CpuBus × Mode :=
  let r := modeReadU8 m c b
  let argument := r.1
  let b := r.2
  let result := c.accumulator ^^^ argument
  let c := c.set_flag ZERO (decide (result = 0))
  let c := c.set_flag NEGATIVE (decide (0 < result &&& 0x80))
  ({ c with accumulator := result }, b, m)

def INC (c : Cpu) (b : CpuBus) (m : Mode) : Cpu × CpuBus × Mode :=
  let r := modeReadU8 m c b
  let result := u8wadd r.1 1
  let c := c.set_flag ZERO (decide (result = 0))
  let c := c.set_flag NEGATIVE (decide (0 < result &&& 0x80))
  let w := modeWriteU8 m result c r.2
  (w.1, w.2, m)

def INX (c : Cpu) (b : CpuBus) (m : Mode) : Cpu × CpuBus × Mode :=
  let result := u8wadd c.x 1
  let c := c.set_flag ZERO (decide (result = 0))
  let c := c.set_flag NEGATIVE (decide (0 < result &&& 0x80))
  ({ c with x := result }, b, m)

def INY (c : Cpu) (b : CpuBus) (m : Mode) : Cpu × CpuBus × Mode :=
  let result := u8wadd c.y 1
  let c := c.set_flag ZERO (decide (result = 0))
  let c := c.set_flag NEGATIVE (decide (0 < result &&& 0x80))
  ({ c with y := result }, b, m)

def JAM (c : Cpu) (b : CpuBus) (m : Mode) : Cpu × CpuBus × Mode :=
  ({ c with is_jammed := true }, b, m)

def JMP (c : Cpu) (b : CpuBus) (m : Mode) : Cpu × CpuBus × Mode :=
  let r := modeReadMA m c b
  ({ c with program_counter := r.1.address }, r.2, m)

def JSR (c : Cpu) (b : CpuBus) (m : Mode) : Cpu × CpuBus × Mode :=
  let r := modeReadMA m c b
  let b := r.2
  let result := u16wsub c.program_counter 1
  let p := c.push_stack_u16 result b
  ({ p.1 with program_counter := r.1.address }, p.2, m)

def LAS (c : Cpu) (b : CpuBus) (m : Mode) : Cpu × CpuBus × Mode :=
  let r := modeReadU8 m c b
  let argument := r.1
  let b := r.2
  let result := argument &&& c.stack_pointer
  let c := { c with accumulator := result, x := result, stack_pointer := result }
  let c := c.set_flag ZERO (decide (result = 0))
  let c := c.set_flag NEGATIVE (decide (0 < result &&& 0x80))
  (c, b, m)

def LDA (c : Cpu) (b : CpuBus) (m : Mode) : Cpu × CpuBus × Mode :=
  let r := modeReadU8 m c b
  let argument := r.1
  let b := r.2
  let c := c.set_flag ZERO (decide (argument = 0))
  let c := c.set_flag NEGATIVE (decide (0 < argument &&& 0x80))
  ({ c with accumulator := argument }, b, m)

def LDX (c : Cpu) (b : CpuBus) (m : Mode) : Cpu × CpuBus × Mode :=
  let r := modeReadU8 m c b
  let argument := r.1
  let b := r.2
  let c := c.set_flag ZERO (decide (argument = 0))
  let c := c.set_flag NEGATIVE (decide (0 < argument &&& 0x80))
  ({ c with x := argument }, b, m)

def LDY (c : Cpu) (b : CpuBus) (m : Mode) : Cpu × CpuBus × Mode :=
  let r := modeReadU8 m c b
  let argument := r.1
  let b := r.2
  let c := c.set_flag ZERO (decide (argument = 0))
  let c := c.set_flag NEGATIVE (decide (0 < argument &&& 0x80))
  ({ c with y := argument }, b, m)

def LAX (c : Cpu) (b : CpuBus) (m : Mode) : Cpu × CpuBus × Mode :=
  let r := LDA c b m
  LDX r.1 r.2.1 r.2.2

def LSR (c : Cpu) (b : CpuBus) (m : Mode) : Cpu × CpuBus × Mode :=
  let r := modeReadU8 m c b
  let argument := r.1
  let b := r.2
  let result := argument >>> 1
  let c := c.set_flag CARRY (decide (0 < argument &&& 0x1))
  let c := c.set_flag ZERO (decide (result = 0))
  let c := c.set_flag NEGATIVE false
  let w := modeWriteU8 m result c b
  (w.1, w.2, m)

def LXA (c : Cpu) (b : CpuBus) (m : Mode) : Cpu × CpuBus × Mode :=
  (c, b, m)

/-- `make_nop` (every `NOP` table entry). -/
def NOP (c : Cpu) (b : CpuBus) (m : Mode) : Cpu × CpuBus × Mode :=
  (c, b, m)

def ORA (c : Cpu) (b : CpuBus) (m : Mode) : Cpu × CpuBus × Mode :=
  let r := modeReadU8 m c b
  let argument := r.1
  let b := r.2
  let result := c.accumulator ||| argument
  let c := c.set_flag ZERO (decide (result = 0))
  let c := c.set_flag NEGATIVE (decide (0 < result &&& 0x80))
  ({ c with accumulator := result }, b, m)

def PHA (c : Cpu) (b : CpuBus) (m : Mode) : Cpu × CpuBus × Mode :=
  let p := c.push_stack c.accumulator b
  (p.1, p.2, m)

def PHP (c : Cpu) (b : CpuBus) (m : Mode) : Cpu × CpuBus × Mode :=
  let p := c.push_stack (c.status ||| BREAK ||| UNUSED) b
  (p.1, p.2, m)

def PLA (c : Cpu) (b : CpuBus) (m : Mode) : Cpu × CpuBus × Mode :=
  let p := c.pop_stack b
  let result := p.1
  let c := p.2.1
  let b := p.2.2
  let c := c.set_flag ZERO (decide (result = 0))
  let c := c.set_flag NEGATIVE (decide (0 < result &&& 0x80))
  ({ c with accumulator := result }, b, m)

def PLP (c : Cpu) (b : CpuBus) (m : Mode) : Cpu × CpuBus × Mode :=
  let p := c.pop_stack b
  let argument := p.1
  let c := p.2.1
  let b := p.2.2
  let result := (argument &&& u8not BREAK) ||| UNUSED
  ({ c with status := result }, b, m)

def ROL (c : Cpu) (b : CpuBus) (m : Mode) : Cpu × CpuBus × Mode :=
  let r := modeReadU8 m c b
  let argument := r.1
  let b := r.2
  let result0 := argument <<< 1
  let result := if c.get_flag CARRY then result0 ||| 0x1 else result0
  let c := c.set_flag CARRY (decide (0xFF < result))
  let c := c.set_flag ZERO (decide (result &&& 0xFF = 0))
  let c := c.set_flag NEGATIVE (decide (0 < result &&& 0x80))
  let w := modeWriteU8 m (result % 256) c b
  (w.1, w.2, m)

def RLA (c : Cpu) (b : CpuBus) (m : Mode) : Cpu × CpuBus × Mode :=
  let r := ROL c b m
  AND r.1 r.2.1 r.2.2

def ROR (c : Cpu) (b : CpuBus) (m : Mode) : Cpu × CpuBus × Mode :=
  let r := modeReadU8 m c b
  let argument := r.1
  let b := r.2
  let result0 := argument >>> 1
  let result := if c.get_flag CARRY then result0 ||| 0x80 else result0
  let c := c.set_flag CARRY (decide (0 < argument &&& 0x1))
  let c := c.set_flag ZERO (decide (result &&& 0xFF = 0))
  let c := c.set_flag NEGATIVE (decide (0 < result &&& 0x80))
  let w := modeWriteU8 m result c b
  (w.1, w.2, m)

def RRA (c : Cpu) (b : CpuBus) (m : Mode) : Cpu × CpuBus × Mode :=
  let r := ROR c b m
  ADC r.1 r.2.1 r.2.2

def RTI (c : Cpu) (b : CpuBus) (m : Mode) : Cpu × CpuBus × Mode :=
  let p := c.pop_stack b
  let flags := p.1
  let c := p.2.1
  let b := p.2.2
  let c := { c with status := (flags &&& u8not BREAK) ||| UNUSED }
  let q := c.pop_stack_u16 b
  ({ q.2.1 with program_counter := q.1 }, q.2.2, m)

def RTS (c : Cpu) (b : CpuBus) (m : Mode) : Option (Cpu × CpuBus × Mode) :=
  let q := c.pop_stack_u16 b
  let c := { q.2.1 with program_counter := q.1 }
  (u16chk (c.program_counter + 1)).map fun pc1 =>
    ({ c with program_counter := pc1 }, q.2.2, m)

def SAX (c : Cpu) (b : CpuBus) (m : Mode) : Cpu × CpuBus × Mode :=
  let w := modeWriteU8 m (c.accumulator &&& c.x) c b
  (w.1, w.2, m)

def SBC (c : Cpu) (b : CpuBus) (m : Mode) : Cpu × CpuBus × Mode :=
  let r := modeReadU8 m c b
  let argument := r.1
  let b := r.2
  let result := c.accumulator + u8not argument + (c.get_flag CARRY).toNat
  let c := c.set_flag CARRY (decide (0xFF < result))
  let c := c.set_flag ZERO (decide (result &&& 0xFF = 0))
  let c := c.set_flag NEGATIVE (decide (0 < result &&& 0x80))
  let c := c.set_flag OVERFLOW (decide (0 < (c.accumulator ^^^ (result % 256)) &&& (c.accumulator ^^^ argument) &&& 0x80))
  ({ c with accumulator := result % 256 }, b, m)

def ISB (c : Cpu) (b : CpuBus) (m : Mode) : Cpu × CpuBus × Mode :=
  let r := INC c b m
  SBC r.1 r.2.1 r.2.2

def SBX (c : Cpu) (b : CpuBus) (m : Mode) : Cpu × CpuBus × Mode :=
  let r := modeReadU8 m c b
  let argument := r.1
  let b := r.2
  let result := u8wsub (c.accumulator &&& c.x) argument
  let c := { c with x := result }
  let c := c.set_flag CARRY (decide (argument ≤ c.accumulator))
  let c := c.set_flag ZERO (decide (result = 0))
  let c := c.set_flag NEGATIVE (decide (0 < result &&& 0x80))
  (c, b, m)

def SEC (c : Cpu) (b : CpuBus) (m : Mode) : Cpu × CpuBus × Mode :=
  (c.set_flag CARRY true, b, m)

def SED (c : Cpu) (b : CpuBus) (m : Mode) : Cpu × CpuBus × Mode :=
  (c.set_flag DECIMAL_MODE true, b, m)

def SEI (c : Cpu) (b : CpuBus) (m : Mode) : Cpu × CpuBus × Mode :=
  (c.set_flag INTERRUPT_DISABLE true, b, m)

def SHA (c : Cpu) (b : CpuBus) (m : Mode) : Cpu × CpuBus × Mode :=
  let r := modeReadMA m c b
  let b := r.2
  let value := c.accumulator &&& c.x &&& u8wadd ((r.1.address >>> 8) % 256) 1
  let w := modeWriteMA m { r.1 with value := value } c b
  (w.1, w.2, m)

def SHY (c : Cpu) (b : CpuBus) (m : Mode) : Cpu × CpuBus × Mode :=
  let r := modeReadMA m c b
  let b := r.2
  let value := c.accumulator &&& c.y &&& u8wadd ((r.1.address >>> 8) % 256) 1
  let w := modeWriteMA m { r.1 with value := value } c b
  (w.1, w.2, m)

def SHX (c : Cpu) (b : CpuBus) (m : Mode) : Cpu × CpuBus × Mode :=
  let r := modeReadMA m c b
  let b := r.2
  let value := c.accumulator &&& c.x &&& u8wadd ((r.1.address >>> 8) % 256) 1
  let w := modeWriteMA m { r.1 with value := value } c b
  (w.1, w.2, m)

def SLO (c : Cpu) (b : CpuBus) (m : Mode) : Cpu × CpuBus × Mode :=
  let r := ASL c b m
  ORA r.1 r.2.1 r.2.2

def SRE (c : Cpu) (b : CpuBus) (m : Mode) : Cpu × CpuBus × Mode :=
  let r := LSR c b m
  EOR r.1 r.2.1 r.2.2

def STA (c : Cpu) (b : CpuBus) (m : Mode) : Cpu × CpuBus × Mode :=
  let w := modeWriteU8 m c.accumulator c b
  (w.1, w.2, m)

def STX (c : Cpu) (b : CpuBus) (m : Mode) : Cpu × CpuBus × Mode :=
  let w := modeWriteU8 m c.x c b
  (w.1, w.2, m)

def STY (c : Cpu) (b : CpuBus) (m : Mode) : Cpu × CpuBus × Mode :=
  let w := modeWriteU8 m c.y c b
  (w.1, w.2, m)

def TAS (c : Cpu) (b : CpuBus) (m : Mode) : Cpu × CpuBus × Mode :=
  let c := { c with stack_pointer := c.accumulator &&& c.x }
  SHA c b m

def TAX (c : Cpu) (b : CpuBus) (m : Mode) : Cpu × CpuBus × Mode :=
  let result := c.accumulator
  let c := c.set_flag ZERO (decide (result = 0))
  let c := c.set_flag NEGATIVE (decide (0 < result &&& 0x80))
  ({ c with x := result }, b, m)

def TAY (c : Cpu) (b : CpuBus) (m : Mode) : Cpu × CpuBus × Mode :=
  let result := c.accumulator
  let c := c.set_flag ZERO (decide (result = 0))
  let c := c.set_flag NEGATIVE (decide (0 < result &&& 0x80))
  ({ c with y := result }, b, m)

def TSX (c : Cpu) (b : CpuBus) (m : Mode) : Cpu × CpuBus × Mode :=
  let result := c.stack_pointer
  let c := c.set_flag ZERO (decide (result = 0))
  let c := c.set_flag NEGATIVE (decide (0 < result &&& 0x80))
  ({ c with x := result }, b, m)

def TXA (c : Cpu) (b : CpuBus) (m : Mode) : Cpu × CpuBus × Mode :=
  let result := c.x
  let c := c.set_flag ZERO (decide (result = 0))
  let c := c.set_flag NEGATIVE (decide (0 < result &&& 0x80))
  ({ c with accumulator := result }, b, m)

def TXS (c : Cpu) (b : CpuBus) (m : Mode) : Cpu × CpuBus × Mode :=
  ({ c with stack_pointer := c.x }, b, m)

def TYA (c : Cpu) (b : CpuBus) (m : Mode) : Cpu × CpuBus × Mode :=
  let result := c.y
  let c := c.set_flag ZERO (decide (result = 0))
  let c := c.set_flag NEGATIVE (decide (0 < result &&& 0x80))
  ({ c with accumulator := result }, b, m)

/- Hex formatting helpers for the disassembly strings of
`src/src/hardware/cpu/addressing_modes/factories.rs` (Rust `{:02X}` /
`{:04X}`: uppercase hex, zero-padded to a minimum width). -/

def hexChar (n : Nat) : Char :=
  (['0', '1', '2', '3', '4', '5', '6', '7', '8', '9', 'A', 'B', 'C', 'D', 'E', 'F']).getD n '0'

def hexRep (n : Nat) : List Char :=
  if h : n < 16 then [hexChar n]
  else hexRep (n / 16) ++ [hexChar (n % 16)]
decreasing_by exact Nat.div_lt_self (by omega) (by omega)

/-- Rust `{:0wX}` formatting: uppercase hex, left-padded with zeros to at
least `width` digits. -/
def hexPad (n width : Nat) : String :=
  let ds := hexRep n
  String.mk (List.replicate (width - ds.length) '0' ++ ds)

/-- `format_hex_u8`. -/
def format_hex_u8 (value : Nat) : String := "$" ++ hexPad value 2

/-- `format_hex_u16`. -/
def format_hex_u16 (value : Nat) : String := "$" ++ hexPad value 4

/-- The thirteen addressing-mode factories of
`src/src/hardware/cpu/addressing_modes/factories.rs`, as named constants of
the instruction table. -/
inductive FactoryId where
  | IMPLICIT
  | ACCUMULATOR
  | IMMEDIATE
  | ZERO_PAGE
  | ZERO_PAGE_X_OFFSET
  | ZERO_PAGE_Y_OFFSET
  | ABSOLUTE
  | ABSOLUTE_JMP
  | ABSOLUTE_X_OFFSET
  | ABSOLUTE_Y_OFFSET
  | INDIRECT
  | INDIRECT_X_OFFSET
  | INDIRECT_Y_OFFSET
  | RELATIVE
deriving Repr, DecidableEq

/-- Run an addressing-mode factory (`AddressingModeFactory`): consume operand
bytes at the program counter (without advancing it) and build the mode.
`Option`-valued because `ABSOLUTE_X_OFFSET`'s `address + cpu.x as u16` and
`INDIRECT`'s `pointer_address + 1` are unchecked `u16` additions, and
`read_u16` adds one to the operand address. -/
def runFactory (f : FactoryId) (c : Cpu) (b : CpuBus) : Option (Mode × CpuBus) :=
  match f with
  | .IMPLICIT =>
    some ({ target := .implicit, pc_offset := 0, extra := 0, display := "" }, b)
  | .ACCUMULATOR =>
    some ({ target := .accumulator, pc_offset := 0, extra := 0, display := "A" }, b)
  | .IMMEDIATE =>
    let address := c.program_counter
    let r := b.read address
    some ({ target := .memory address, pc_offset := 1, extra := 0,
            display := "#" ++ format_hex_u8 r.1 }, r.2)
  | .ZERO_PAGE =>
    let r := b.read c.program_counter
    let address := r.1
    let rv := r.2.read address
    some ({ target := .memory address, pc_offset := 1, extra := 0,
            display := format_hex_u8 (address % 256) ++ " = " ++ hexPad rv.1 2 }, rv.2)
  | .ZERO_PAGE_X_OFFSET =>
    let r := b.read c.program_counter
    let address := r.1
    let offset_address := u8wadd address c.x
    let rv := r.2.read offset_address
    some ({ target := .memory offset_address, pc_offset := 1, extra := 0,
            display := format_hex_u8 (address % 256) ++ ",X @ " ++ hexPad offset_address 2
              ++ " = " ++ hexPad rv.1 2 }, rv.2)
  | .ZERO_PAGE_Y_OFFSET =>
    let r := b.read c.program_counter
    let address := r.1
    let offset_address := u8wadd address c.y
    let rv := r.2.read offset_address
    some ({ target := .memory offset_address, pc_offset := 1, extra := 0,
            display := format_hex_u8 (address % 256) ++ ",Y @ " ++ hexPad offset_address 2
              ++ " = " ++ hexPad rv.1 2 }, rv.2)
  | .ABSOLUTE =>
    (b.read_u16 c.program_counter).map fun r =>
      let address := r.1
      let rv := r.2.read address
      ({ target := .memory address, pc_offset := 2, extra := 0,
         display := format_hex_u16 address ++ " = " ++ hexPad rv.1 2 }, rv.2)
  | .ABSOLUTE_JMP =>
    (b.read_u16 c.program_counter).map fun r =>
      ({ target := .memory r.1, pc_offset := 2, extra := 0,
         display := format_hex_u16 r.1 }, r.2)
  | .ABSOLUTE_X_OFFSET =>
    (b.read_u16 c.program_counter).bind fun r =>
      let address := r.1
      (u16chk (address + c.x)).map fun offset_address =>
        let rv := r.2.read offset_address
        let add_cycle := offset_address &&& 0xFF00 ≠ address &&& 0xFF00
        ({ target := .memory offset_address, pc_offset := 2,
           extra := if add_cycle then 1 else 0,
           display := format_hex_u16 address ++ ",X @ " ++ hexPad offset_address 4
             ++ " = " ++ hexPad rv.1 2 }, rv.2)
  | .ABSOLUTE_Y_OFFSET =>
    (b.read_u16 c.program_counter).map fun r =>
      let address := r.1
      let offset_address := u16wadd address c.y
      let rv := r.2.read offset_address
      let add_cycle := offset_address &&& 0xFF00 ≠ address &&& 0xFF00
      ({ target := .memory offset_address, pc_offset := 2,
         extra := if add_cycle then 1 else 0,
         display := format_hex_u16 address ++ ",Y @ " ++ hexPad offset_address 4
           ++ " = " ++ hexPad rv.1 2 }, rv.2)
  | .INDIRECT =>
    (b.read_u16 c.program_counter).bind fun r =>
      let pointer_address := r.1
      let rl := r.2.read pointer_address
      (u16chk (pointer_address + 1)).map fun p1 =>
        let high_address := (pointer_address &&& 0xFF00) ||| (p1 &&& 0x00FF)
        let rh := rl.2.read high_address
        let address := (rh.1 <<< 8) ||| rl.1
        ({ target := .memory address, pc_offset := 2, extra := 0,
           display := "(" ++ format_hex_u16 pointer_address ++ ") = " ++ hexPad address 4 },
         rh.2)
  | .INDIRECT_X_OFFSET =>
    let r := b.read c.program_counter
    let argument := r.1
    let pointer_address := u8wadd argument c.x
    let rl := r.2.read pointer_address
    let high_address := (pointer_address &&& 0xFF00) ||| ((pointer_address + 1) &&& 0x00FF)
    let rh := rl.2.read high_address
    let address := (rh.1 <<< 8) ||| rl.1
    let rv := rh.2.read address
    some ({ target := .memory address, pc_offset := 1, extra := 0,
            display := "(" ++ format_hex_u8 argument ++ ",X) @ " ++ hexPad pointer_address 2
              ++ " = " ++ hexPad address 4 ++ " = " ++ hexPad rv.1 2 }, rv.2)
  | .INDIRECT_Y_OFFSET =>
    let r := b.read c.program_counter
    let argument := r.1
    let rl := r.2.read argument
    let high_addr := (argument &&& 0xFF00) ||| ((argument + 1) &&& 0x00FF)
    let rh := rl.2.read high_addr
    let address := (rh.1 <<< 8) ||| rl.1
    let offset_address := u16wadd address c.y
    let add_cycle := offset_address &&& 0xFF00 ≠ address &&& 0xFF00
    let rv := rh.2.read offset_address
    some ({ target := .memory offset_address, pc_offset := 1,
            extra := if add_cycle then 1 else 0,
            display := "(" ++ format_hex_u8 (argument % 256) ++ "),Y = " ++ hexPad address 4
              ++ " @ " ++ hexPad offset_address 4 ++ " = " ++ hexPad rv.1 2 }, rv.2)
  | .RELATIVE =>
    let address := c.program_counter
    let r := b.read address
    let value := toI8 r.1
    some ({ target := .relative address, pc_offset := 1, extra := 0,
            display := format_hex_u16 (i32toU16 ((address : Int) + value + 1)) }, r.2)

/-- The operations of `src/src/hardware/cpu/operations.rs`, as named
constants of the instruction table. -/
inductive OpId where
  | ADC | ALR | ANC | AND | ANE | ARR | ASL
  | BCC | BCS | BEQ | BIT | BMI | BNE | BPL | BRK | BVC | BVS
  | CLC | CLD | CLI | CLV | CMP | CPX | CPY
  | DCP | DEC | DEX | DEY
  | EOR
  | INC | INX | INY | ISB
  | JAM | JMP | JSR
  | LAS | LAX | LDA | LDX | LDY | LSR | LXA
  | NOP
  | ORA
  | PHA | PHP | PLA | PLP
  | RLA | ROL | ROR | RRA | RTI | RTS
  | SAX | SBC | SBX | SEC | SED | SEI | SHA | SHY | SHX | SLO | SRE
  | STA | STX | STY
  | TAS | TAX | TAY | TSX | TXA | TXS | TYA
deriving Repr, DecidableEq

/-- Dispatch an operation constant to its state transformer. -/
def execOp (o : OpId) (c : Cpu) (b : CpuBus) (m : Mode) : Option (Cpu × CpuBus × Mode) :=
  match o with
  | .ADC => some (ADC c b m)
  | .ALR => some (ALR c b m)
  | .ANC => some (ANC c b m)
  | .AND => some (AND c b m)
  | .ANE => some (ANE c b m)
  | .ARR => some (ARR c b m)
  | .ASL => some (ASL c b m)
  | .BCC => some (BCC c b m)
  | .BCS => some (BCS c b m)
  | .BEQ => some (BEQ c b m)
  | .BIT => some (BIT c b m)
  | .BMI => some (BMI c b m)
  | .BNE => some (BNE c b m)
  | .BPL => some (BPL c b m)
  | .BRK => BRK c b m
  | .BVC => some (BVC c b m)
  | .BVS => some (BVS c b m)
  | .CLC => some (CLC c b m)
  | .CLD => some (CLD c b m)
  | .CLI => some (CLI c b m)
  | .CLV => some (CLV c b m)
  | .CMP => some (CMP c b m)
  | .CPX => some (CPX c b m)
  | .CPY => some (CPY c b m)
  | .DCP => some (DCP c b m)
  | .DEC => some (DEC c b m)
  | .DEX => some (DEX c b m)
  | .DEY => some (DEY c b m)
  | .EOR => some (EOR c b m)
  | .INC => some (INC c b m)
  | .INX => some (INX c b m)
  | .INY => some (INY c b m)
  | .ISB => some (ISB c b m)
  | .JAM => some (JAM c b m)
  | .JMP => some (JMP c b m)
  | .JSR => some (JSR c b m)
  | .LAS => some (LAS c b m)
  | .LAX => some (LAX c b m)
  | .LDA => some (LDA c b m)
  | .LDX => some (LDX c b m)
  | .LDY => some (LDY c b m)
  | .LSR => some (LSR c b m)
  | .LXA => some (LXA c b m)
  | .NOP => some (NOP c b m)
  | .ORA => some (ORA c b m)
  | .PHA => some (PHA c b m)
  | .PHP => some (PHP c b m)
  | .PLA => some (PLA c b m)
  | .PLP => some (PLP c b m)
  | .RLA => some (RLA c b m)
  | .ROL => some (ROL c b m)
  | .ROR => some (ROR c b m)
  | .RRA => some (RRA c b m)
  | .RTI => some (RTI c b m)
  | .RTS => RTS c b m
  | .SAX => some (SAX c b m)
  | .SBC => some (SBC c b m)
  | .SBX => some (SBX c b m)
  | .SEC => some (SEC c b m)
  | .SED => some (SED c b m)
  | .SEI => some (SEI c b m)
  | .SHA => some (SHA c b m)
  | .SHY => some (SHY c b m)
  | .SHX => some (SHX c b m)
  | .SLO => some (SLO c b m)
  | .SRE => some (SRE c b m)
  | .STA => some (STA c b m)
  | .STX => some (STX c b m)
  | .STY => some (STY c b m)
  | .TAS => some (TAS c b m)
  | .TAX => some (TAX c b m)
  | .TAY => some (TAY c b m)
  | .TSX => some (TSX c b m)
  | .TXA => some (TXA c b m)
  | .TXS => some (TXS c b m)
  | .TYA => some (TYA c b m)

/-- One table entry of `src/src/hardware/cpu/instructions.rs`
(`InstructionFactory`): operation, addressing-mode factory, base cycles,
name, `can_require_extra_cycles`, `is_illegal`. -/
structure InstructionFactory where
  op : OpId
  mode : FactoryId
  cycles : Nat
  name : String
  extra : Bool
  illegal : Bool

/-- Shorthand constructor used for the 256 table rows. -/
def ent (op : OpId) (mode : FactoryId) (cycles : Nat) (name : String)
    (extra illegal : Bool) : InstructionFactory :=
  ⟨op, mode, cycles, name, extra, illegal⟩

/-- The 256-entry opcode table (`INSTRUCTIONS_LOOKUP` /
`get_instructions` in `src/src/hardware/cpu/instructions.rs`), indexed by
opcode byte; a `RELATIVE*`-style star in the source sets
`can_require_extra_cycles`, a leading `*` sets `is_illegal`. -/
def INSTRUCTIONS_LOOKUP : List InstructionFactory := [
    ent .BRK .IMPLICIT 7 "BRK" false false,
    ent .ORA .INDIRECT_X_OFFSET 6 "ORA" false false,
    ent .JAM .IMPLICIT 1 "JAM" false true,
    ent .SLO .INDIRECT_X_OFFSET 8 "SLO" false true,
    ent .NOP .ZERO_PAGE 3 "NOP" false true,
    ent .ORA .ZERO_PAGE 3 "ORA" false false,
    ent .ASL .ZERO_PAGE 5 "ASL" false false,
    ent .SLO .ZERO_PAGE 5 "SLO" false true,
    ent .PHP .IMPLICIT 3 "PHP" false false,
    ent .ORA .IMMEDIATE 2 "ORA" false false,
    ent .ASL .ACCUMULATOR 2 "ASL" false false,
    ent .ANC .IMMEDIATE 2 "ANC" false true,
    ent .NOP .ABSOLUTE 4 "NOP" false true,
    ent .ORA .ABSOLUTE 4 "ORA" false false,
    ent .ASL .ABSOLUTE 6 "ASL" false false,
    ent .SLO .ABSOLUTE 6 "SLO" false true,
    ent .BPL .RELATIVE 2 "BPL" true false,
    ent .ORA .INDIRECT_Y_OFFSET 5 "ORA" true false,
    ent .JAM .IMPLICIT 1 "JAM" false true,
    ent .SLO .INDIRECT_Y_OFFSET 8 "SLO" false true,
    ent .NOP .ZERO_PAGE_X_OFFSET 4 "NOP" false true,
    ent .ORA .ZERO_PAGE_X_OFFSET 4 "ORA" false false,
    ent .ASL .ZERO_PAGE_X_OFFSET 6 "ASL" false false,
    ent .SLO .ZERO_PAGE_X_OFFSET 6 "SLO" false true,
    ent .CLC .IMPLICIT 2 "CLC" false false,
    ent .ORA .ABSOLUTE_Y_OFFSET 4 "ORA" true false,
    ent .NOP .IMPLICIT 2 "NOP" false true,
    ent .SLO .ABSOLUTE_Y_OFFSET 7 "SLO" false true,
    ent .NOP .ABSOLUTE_X_OFFSET 4 "NOP" true true,
    ent .ORA .ABSOLUTE_X_OFFSET 4 "ORA" true false,
    ent .ASL .ABSOLUTE_X_OFFSET 7 "ASL" false false,
    ent .SLO .ABSOLUTE_X_OFFSET 7 "SLO" false true,
    ent .JSR .ABSOLUTE_JMP 6 "JSR" false false,
    ent .AND .INDIRECT_X_OFFSET 6 "AND" false false,
    ent .JAM .IMPLICIT 1 "JAM" false true,
    ent .RLA .INDIRECT_X_OFFSET 8 "RLA" false true,
    ent .BIT .ZERO_PAGE 3 "BIT" false false,
    ent .AND .ZERO_PAGE 3 "AND" false false,
    ent .ROL .ZERO_PAGE 5 "ROL" false false,
    ent .RLA .ZERO_PAGE 5 "RLA" false true,
    ent .PLP .IMPLICIT 4 "PLP" false false,
    ent .AND .IMMEDIATE 2 "AND" false false,
    ent .ROL .ACCUMULATOR 2 "ROL" false false,
    ent .ANC .IMMEDIATE 2 "ANC" false true,
    ent .BIT .ABSOLUTE 4 "BIT" false false,
    ent .AND .ABSOLUTE 4 "AND" false false,
    ent .ROL .ABSOLUTE 6 "ROL" false false,
    ent .RLA .ABSOLUTE 6 "RLA" false true,
    ent .BMI .RELATIVE 2 "BMI" true false,
    ent .AND .INDIRECT_Y_OFFSET 5 "AND" true false,
    ent .JAM .IMPLICIT 1 "JAM" false true,
    ent .RLA .INDIRECT_Y_OFFSET 8 "RLA" false true,
    ent .NOP .ZERO_PAGE_X_OFFSET 4 "NOP" false true,
    ent .AND .ZERO_PAGE_X_OFFSET 4 "AND" false false,
    ent .ROL .ZERO_PAGE_X_OFFSET 6 "ROL" false false,
    ent .RLA .ZERO_PAGE_X_OFFSET 6 "RLA" false true,
    ent .SEC .IMPLICIT 2 "SEC" false false,
    ent .AND .ABSOLUTE_Y_OFFSET 4 "AND" true false,
    ent .NOP .IMPLICIT 2 "NOP" false true,
    ent .RLA .ABSOLUTE_Y_OFFSET 7 "RLA" false true,
    ent .NOP .ABSOLUTE_X_OFFSET 4 "NOP" true true,
    ent .AND .ABSOLUTE_X_OFFSET 4 "AND" true false,
    ent .ROL .ABSOLUTE_X_OFFSET 7 "ROL" false false,
    ent .RLA .ABSOLUTE_X_OFFSET 7 "RLA" false true,
    ent .RTI .IMPLICIT 6 "RTI" false false,
    ent .EOR .INDIRECT_X_OFFSET 6 "EOR" false false,
    ent .JAM .IMPLICIT 1 "JAM" false true,
    ent .SRE .INDIRECT_X_OFFSET 8 "SRE" false true,
    ent .NOP .ZERO_PAGE 3 "NOP" false true,
    ent .EOR .ZERO_PAGE 3 "EOR" false false,
    ent .LSR .ZERO_PAGE 5 "LSR" false false,
    ent .SRE .ZERO_PAGE 5 "SRE" false true,
    ent .PHA .IMPLICIT 3 "PHA" false false,
    ent .EOR .IMMEDIATE 2 "EOR" false false,
    ent .LSR .ACCUMULATOR 2 "LSR" false false,
    ent .ALR .IMMEDIATE 2 "ALR" false true,
    ent .JMP .ABSOLUTE_JMP 3 "JMP" false false,
    ent .EOR .ABSOLUTE 4 "EOR" false false,
    ent .LSR .ABSOLUTE 6 "LSR" false false,
    ent .SRE .ABSOLUTE 6 "SRE" false true,
    ent .BVC .RELATIVE 2 "BVC" true false,
    ent .EOR .INDIRECT_Y_OFFSET 5 "EOR" true false,
    ent .JAM .IMPLICIT 1 "JAM" false true,
    ent .SRE .INDIRECT_Y_OFFSET 8 "SRE" false true,
    ent .NOP .ZERO_PAGE_X_OFFSET 4 "NOP" false true,
    ent .EOR .ZERO_PAGE_X_OFFSET 4 "EOR" false false,
    ent .LSR .ZERO_PAGE_X_OFFSET 6 "LSR" false false,
    ent .SRE .ZERO_PAGE_X_OFFSET 6 "SRE" false true,
    ent .CLI .IMPLICIT 2 "CLI" false false,
    ent .EOR .ABSOLUTE_Y_OFFSET 4 "EOR" true false,
    ent .NOP .IMPLICIT 2 "NOP" false true,
    ent .SRE .ABSOLUTE_Y_OFFSET 7 "SRE" false true,
    ent .NOP .ABSOLUTE_X_OFFSET 4 "NOP" true true,
    ent .EOR .ABSOLUTE_X_OFFSET 4 "EOR" true false,
    ent .LSR .ABSOLUTE_X_OFFSET 7 "LSR" false false,
    ent .SRE .ABSOLUTE_X_OFFSET 7 "SRE" false true,
    ent .RTS .IMPLICIT 6 "RTS" false false,
    ent .ADC .INDIRECT_X_OFFSET 6 "ADC" false false,
    ent .JAM .IMPLICIT 2 "JAM" false true,
    ent .RRA .INDIRECT_X_OFFSET 8 "RRA" false true,
    ent .NOP .ZERO_PAGE 3 "NOP" false true,
    ent .ADC .ZERO_PAGE 3 "ADC" false false,
    ent .ROR .ZERO_PAGE 5 "ROR" false false,
    ent .RRA .ZERO_PAGE 5 "RRA" false true,
    ent .PLA .IMPLICIT 4 "PLA" false false,
    ent .ADC .IMMEDIATE 2 "ADC" false false,
    ent .ROR .ACCUMULATOR 2 "ROR" false false,
    ent .ARR .IMMEDIATE 2 "ARR" false true,
    ent .JMP .INDIRECT 5 "JMP" false false,
    ent .ADC .ABSOLUTE 4 "ADC" false false,
    ent .ROR .ABSOLUTE 6 "ROR" false false,
    ent .RRA .ABSOLUTE 6 "RRA" false true,
    ent .BVS .RELATIVE 2 "BVS" true false,
    ent .ADC .INDIRECT_Y_OFFSET 5 "ADC" true false,
    ent .JAM .IMPLICIT 2 "JAM" false true,
    ent .RRA .INDIRECT_Y_OFFSET 8 "RRA" false true,
    ent .NOP .ZERO_PAGE_X_OFFSET 4 "NOP" false true,
    ent .ADC .ZERO_PAGE_X_OFFSET 4 "ADC" false false,
    ent .ROR .ZERO_PAGE_X_OFFSET 6 "ROR" false false,
    ent .RRA .ZERO_PAGE_X_OFFSET 6 "RRA" false true,
    ent .SEI .IMPLICIT 2 "SEI" false false,
    ent .ADC .ABSOLUTE_Y_OFFSET 4 "ADC" true false,
    ent .NOP .IMPLICIT 2 "NOP" false true,
    ent .RRA .ABSOLUTE_Y_OFFSET 7 "RRA" false true,
    ent .NOP .ABSOLUTE_X_OFFSET 4 "NOP" true true,
    ent .ADC .ABSOLUTE_X_OFFSET 4 "ADC" true false,
    ent .ROR .ABSOLUTE_X_OFFSET 7 "ROR" false false,
    ent .RRA .ABSOLUTE_X_OFFSET 7 "RRA" false true,
    ent .NOP .IMMEDIATE 2 "NOP" false true,
    ent .STA .INDIRECT_X_OFFSET 6 "STA" false false,
    ent .NOP .IMMEDIATE 2 "NOP" false true,
    ent .SAX .INDIRECT_X_OFFSET 6 "SAX" false true,
    ent .STY .ZERO_PAGE 3 "STY" false false,
    ent .STA .ZERO_PAGE 3 "STA" false false,
    ent .STX .ZERO_PAGE 3 "STX" false false,
    ent .SAX .ZERO_PAGE 3 "SAX" false true,
    ent .DEY .IMPLICIT 2 "DEY" false false,
    ent .NOP .IMMEDIATE 2 "NOP" false true,
    ent .TXA .IMPLICIT 2 "TXA" false false,
    ent .ANE .IMMEDIATE 2 "ANE" false true,
    ent .STY .ABSOLUTE 4 "STY" false false,
    ent .STA .ABSOLUTE 4 "STA" false false,
    ent .STX .ABSOLUTE 4 "STX" false false,
    ent .SAX .ABSOLUTE 4 "SAX" false true,
    ent .BCC .RELATIVE 2 "BCC" true false,
    ent .STA .INDIRECT_Y_OFFSET 6 "STA" false false,
    ent .JAM .IMPLICIT 1 "JAM" false true,
    ent .SHA .INDIRECT_Y_OFFSET 6 "SHA" false true,
    ent .STY .ZERO_PAGE_X_OFFSET 4 "STY" false false,
    ent .STA .ZERO_PAGE_X_OFFSET 4 "STA" false false,
    ent .STX .ZERO_PAGE_Y_OFFSET 4 "STX" false false,
    ent .SAX .ZERO_PAGE_Y_OFFSET 4 "SAX" false true,
    ent .TYA .IMPLICIT 2 "TYA" false false,
    ent .STA .ABSOLUTE_Y_OFFSET 5 "STA" false false,
    ent .TXS .IMPLICIT 2 "TXS" false false,
    ent .TAS .ABSOLUTE_Y_OFFSET 5 "TAS" false true,
    ent .SHY .ABSOLUTE_X_OFFSET 5 "SHY" false true,
    ent .STA .ABSOLUTE_X_OFFSET 5 "STA" false false,
    ent .SHX .ABSOLUTE_Y_OFFSET 5 "SHX" false true,
    ent .SHA .ABSOLUTE_Y_OFFSET 5 "SHA" false true,
    ent .LDY .IMMEDIATE 2 "LDY" false false,
    ent .LDA .INDIRECT_X_OFFSET 6 "LDA" false false,
    ent .LDX .IMMEDIATE 2 "LDX" false false,
    ent .LAX .INDIRECT_X_OFFSET 6 "LAX" false true,
    ent .LDY .ZERO_PAGE 3 "LDY" false false,
    ent .LDA .ZERO_PAGE 3 "LDA" false false,
    ent .LDX .ZERO_PAGE 3 "LDX" false false,
    ent .LAX .ZERO_PAGE 3 "LAX" false true,
    ent .TAY .IMPLICIT 2 "TAY" false false,
    ent .LDA .IMMEDIATE 2 "LDA" false false,
    ent .TAX .IMPLICIT 2 "TAX" false false,
    ent .LXA .IMMEDIATE 2 "LXA" false true,
    ent .LDY .ABSOLUTE 4 "LDY" false false,
    ent .LDA .ABSOLUTE 4 "LDA" false false,
    ent .LDX .ABSOLUTE 4 "LDX" false false,
    ent .LAX .ABSOLUTE 4 "LAX" false true,
    ent .BCS .RELATIVE 2 "BCS" true false,
    ent .LDA .INDIRECT_Y_OFFSET 5 "LDA" true false,
    ent .JAM .IMPLICIT 1 "JAM" false true,
    ent .LAX .INDIRECT_Y_OFFSET 5 "LAX" true true,
    ent .LDY .ZERO_PAGE_X_OFFSET 4 "LDY" false false,
    ent .LDA .ZERO_PAGE_X_OFFSET 4 "LDA" false false,
    ent .LDX .ZERO_PAGE_Y_OFFSET 4 "LDX" false false,
    ent .LAX .ZERO_PAGE_Y_OFFSET 4 "LAX" false true,
    ent .CLV .IMPLICIT 2 "CLV" false false,
    ent .LDA .ABSOLUTE_Y_OFFSET 4 "LDA" true false,
    ent .TSX .IMPLICIT 2 "TSX" false false,
    ent .LAS .ABSOLUTE_Y_OFFSET 4 "LAS" true true,
    ent .LDY .ABSOLUTE_X_OFFSET 4 "LDY" true false,
    ent .LDA .ABSOLUTE_X_OFFSET 4 "LDA" true false,
    ent .LDX .ABSOLUTE_Y_OFFSET 4 "LDX" true false,
    ent .LAX .ABSOLUTE_Y_OFFSET 4 "LAX" true true,
    ent .CPY .IMMEDIATE 2 "CPY" false false,
    ent .CMP .INDIRECT_X_OFFSET 6 "CMP" false false,
    ent .NOP .IMMEDIATE 2 "NOP" false true,
    ent .DCP .INDIRECT_X_OFFSET 8 "DCP" false true,
    ent .CPY .ZERO_PAGE 3 "CPY" false false,
    ent .CMP .ZERO_PAGE 3 "CMP" false false,
    ent .DEC .ZERO_PAGE 5 "DEC" false false,
    ent .DCP .ZERO_PAGE 5 "DCP" false true,
    ent .INY .IMPLICIT 2 "INY" false false,
    ent .CMP .IMMEDIATE 2 "CMP" false false,
    ent .DEX .IMPLICIT 2 "DEX" false false,
    ent .SBX .IMMEDIATE 2 "SBX" false true,
    ent .CPY .ABSOLUTE 4 "CPY" false false,
    ent .CMP .ABSOLUTE 4 "CMP" false false,
    ent .DEC .ABSOLUTE 6 "DEC" false false,
    ent .DCP .ABSOLUTE 6 "DCP" false true,
    ent .BNE .RELATIVE 2 "BNE" true false,
    ent .CMP .INDIRECT_Y_OFFSET 5 "CMP" true false,
    ent .JAM .IMPLICIT 1 "JAM" false true,
    ent .DCP .INDIRECT_Y_OFFSET 8 "DCP" false true,
    ent .NOP .ZERO_PAGE_X_OFFSET 4 "NOP" false true,
    ent .CMP .ZERO_PAGE_X_OFFSET 4 "CMP" false false,
    ent .DEC .ZERO_PAGE_X_OFFSET 6 "DEC" false false,
    ent .DCP .ZERO_PAGE_X_OFFSET 6 "DCP" false true,
    ent .CLD .IMPLICIT 2 "CLD" false false,
    ent .CMP .ABSOLUTE_Y_OFFSET 4 "CMP" true false,
    ent .NOP .IMPLICIT 2 "NOP" false true,
    ent .DCP .ABSOLUTE_Y_OFFSET 7 "DCP" false true,
    ent .NOP .ABSOLUTE_X_OFFSET 4 "NOP" true true,
    ent .CMP .ABSOLUTE_X_OFFSET 4 "CMP" true false,
    ent .DEC .ABSOLUTE_X_OFFSET 7 "DEC" false false,
    ent .DCP .ABSOLUTE_X_OFFSET 7 "DCP" false true,
    ent .CPX .IMMEDIATE 2 "CPX" false false,
    ent .SBC .INDIRECT_X_OFFSET 6 "SBC" false false,
    ent .NOP .IMMEDIATE 2 "NOP" false true,
    ent .ISB .INDIRECT_X_OFFSET 8 "ISB" false true,
    ent .CPX .ZERO_PAGE 3 "CPX" false false,
    ent .SBC .ZERO_PAGE 3 "SBC" false false,
    ent .INC .ZERO_PAGE 5 "INC" false false,
    ent .ISB .ZERO_PAGE 5 "ISB" false true,
    ent .INX .IMPLICIT 2 "INX" false false,
    ent .SBC .IMMEDIATE 2 "SBC" false false,
    ent .NOP .IMPLICIT 2 "NOP" false false,
    ent .SBC .IMMEDIATE 2 "SBC" false true,
    ent .CPX .ABSOLUTE 4 "CPX" false false,
    ent .SBC .ABSOLUTE 4 "SBC" false false,
    ent .INC .ABSOLUTE 6 "INC" false false,
    ent .ISB .ABSOLUTE 6 "ISB" false true,
    ent .BEQ .RELATIVE 2 "BEQ" true false,
    ent .SBC .INDIRECT_Y_OFFSET 5 "SBC" true false,
    ent .JAM .IMPLICIT 1 "JAM" false true,
    ent .ISB .INDIRECT_Y_OFFSET 8 "ISB" false true,
    ent .NOP .ZERO_PAGE_X_OFFSET 4 "NOP" false true,
    ent .SBC .ZERO_PAGE_X_OFFSET 4 "SBC" false false,
    ent .INC .ZERO_PAGE_X_OFFSET 6 "INC" false false,
    ent .ISB .ZERO_PAGE_X_OFFSET 6 "ISB" false true,
    ent .SED .IMPLICIT 2 "SED" false false,
    ent .SBC .ABSOLUTE_Y_OFFSET 4 "SBC" true false,
    ent .NOP .IMPLICIT 2 "NOP" false true,
    ent .ISB .ABSOLUTE_Y_OFFSET 7 "ISB" false true,
    ent .NOP .ABSOLUTE_X_OFFSET 4 "NOP" true true,
    ent .SBC .ABSOLUTE_X_OFFSET 4 "SBC" true false,
    ent .INC .ABSOLUTE_X_OFFSET 7 "INC" false false,
    ent .ISB .ABSOLUTE_X_OFFSET 7 "ISB" false true
  ]

/-- The fetch-decode-execute core of `Cpu::tick` (and
`Cpu::get_next_instruction` plus `Instruction::execute`): read the opcode at
the program counter, advance it (unchecked `u16` `+= 1`), build the
addressing mode, advance the program counter by the mode's operand offset
(unchecked `u16` `+=`), run the operation, and return the required cycle
count `cycles + extra` (the extra counted only when the table entry has
`can_require_extra_cycles`). -/
def fetchExec (c : Cpu) (b : CpuBus) : Option (Nat × Cpu × CpuBus) :=
  let r := b.read c.program_counter
  let instruction_code := r.1
  let b := r.2
  (u16chk (c.program_counter + 1)).bind fun pc1 =>
  let c := { c with program_counter := pc1 }
  let e := INSTRUCTIONS_LOOKUP.getD instruction_code (ent .NOP .IMPLICIT 2 "NOP" false false)
  (runFactory e.mode c b).bind fun rm =>
  (u16chk (c.program_counter + rm.1.pc_offset)).bind fun pc2 =>
  let c := { c with program_counter := pc2 }
  (execOp e.op c rm.2 rm.1).map fun res =>
    let extra_cycles := if e.extra then res.2.2.extra else 0
    (e.cycles + extra_cycles, res.1, res.2.1)

/-- `Cpu::tick` (without the log line, which does not change state): jammed
CPUs return immediately, a pending `is_resetting` flag is cleared, stall
cycles drain one per tick, and otherwise one instruction is fetched and
executed, with `cycles_left += required - 1` and
`total_cycles += required`. -/
def Cpu.tick (c : Cpu) (b : CpuBus) : Option (Cpu × CpuBus) :=
  if c.is_jammed then some (c, b)
  else
    let c := if c.is_resetting then { c with is_resetting := false } else c
    if 0 < c.cycles_left then some ({ c with cycles_left := c.cycles_left - 1 }, b)
    else
      (fetchExec c b).map fun res =>
        let required_cycles := res.1
        let c := res.2.1
        let c := { c with cycles_left := c.cycles_left + required_cycles - 1,
                          total_cycles := c.total_cycles + required_cycles }
        (c, res.2.2)

/- Cartridge header, mappers and parsing, from
`src/src/hardware/cartrige/mod.rs`, `mappers/mod.rs` and
`mappers/implementations.rs`. -/

/-- `MemoryAccess` (declared in the cartridge module; matched on by the
mappers): the CPU-vs-PPU address discriminator. -/
inductive MemoryAccess where
  | CpuAccess (address : Nat)
  | PpuAccess (address : Nat)
deriving Repr, DecidableEq

/-- `Header`, from `src/src/hardware/cartrige/mod.rs`. -/
structure Header where
  prg_size : Nat
  chr_size : Nat
  flags6 : Nat
  flags7 : Nat
  flags8 : Nat
  flags9 : Nat
  flags10 : Nat
deriving Repr, DecidableEq

/-- `Header::prg_rom_size`. -/
def Header.prg_rom_size (h : Header) : Nat := h.prg_size

/-- `Header::get_mapper_id`: `((flags6 >> 4) << 4) | (flags7 >> 4)`. -/
def Header.get_mapper_id (h : Header) : Nat :=
  (((h.flags6 % 256) >>> 4) <<< 4) ||| ((h.flags7 % 256) >>> 4)

/-- `Header::get_has_trainer`: `flags6 & FLAG6_TRAINER != 0` with
`FLAG6_TRAINER = 1 << 2`. -/
def Header.get_has_trainer (h : Header) : Bool :=
  h.flags6 &&& 4 ≠ 0

/-- Mapper-2 state (`M002` in
`src/src/hardware/cartrige/mappers/implementations.rs`). -/
structure M002 where
  header : Header
  selected_bank : Nat
deriving Repr, DecidableEq

/-- `M002::new`. -/
def M002.new (header : Header) : M002 := ⟨header, 0⟩

/-- `M002::map_read`.  The inner `Option` is the mapper's own
mapped/unmapped answer; the outer `Option` is `none` exactly when the `u16`
arithmetic of the source — `selected_bank as u16 * 16384u16 + (addr &
0x3FFF)`, or `(prg_rom_size() - 1) as u8` times `16384u16` — overflows (or
underflows, for `prg_rom_size() = 0`), which is a program error in Rust. -/
def M002.map_read (m : M002) (memory_access : MemoryAccess) : Option (Option Nat) :=
  match memory_access with
  | .CpuAccess address =>
    if address < 0x8000 then some none
    else if address < 0xC000 then
      (u16chk (m.selected_bank * 16384)).bind fun bank_base =>
      (u16chk (bank_base + (address &&& 0x3FFF))).map fun offset => some offset
    else
      (u8sub m.header.prg_rom_size 1).bind fun last_bank =>
      (u16chk (last_bank * 16384)).bind fun bank_base =>
      (u16chk (bank_base + (address &&& 0x3FFF))).map fun offset => some offset
  | .PpuAccess address =>
    if address < 0x2000 then some (some address) else some none

/-- `M002::map_write`: CPU writes at `0x8000..` store `value & 0x0F` into
`selected_bank`; the returned `Option` is the mapper's mapped/unmapped
answer for the write. -/
def M002.map_write (m : M002) (memory_access : MemoryAccess) (value : Nat) :
    Option Nat × M002 :=
  match memory_access with
  | .CpuAccess address =>
    if address < 0x8000 then (none, m)
    else (none, { m with selected_bank := value &&& 0x0F })
  | .PpuAccess address =>
    if address < 0x2000 then
      if m.header.chr_size = 0 then (some address, m) else (none, m)
    else (none, m)

/-- `CartrigeParseError`, from `src/src/hardware/cartrige/error.rs`. -/
inductive CartrigeParseError where
  | IoError
  | MissingMagicNumbersError
  | NotEnoughBytesError (n : Nat)
  | UnknownMapperIdError (id : Nat)
deriving Repr, DecidableEq

/-- `NES_MAGIC_NUMBERS` from `src/src/hardware/constants.rs`. -/
def NES_MAGIC_NUMBERS : List Nat := [0x4E, 0x45, 0x53, 0x1A]

/-- `try_get_next_n`: split off the next `n` bytes, failing with
`NotEnoughBytesError(n)` when fewer remain. -/
def try_get_next_n (data : List Nat) (n : Nat) :
    Except CartrigeParseError (List Nat × List Nat) :=
  if data.length < n then .error (.NotEnoughBytesError n)
  else .ok (data.take n, data.drop n)

/-- `try_get_next`: one byte, failing with `NotEnoughBytesError(1)`. -/
def try_get_next (data : List Nat) : Except CartrigeParseError (Nat × List Nat) :=
  match data with
  | [] => .error (.NotEnoughBytesError 1)
  | v :: rest => .ok (v, rest)

/-- `mapper::from_header` (the `mapper` module `cartrige/mod.rs` uses): only
mapper id 0 is known; anything else fails with `UnknownMapperIdError`. -/
def from_header (h : Header) : Except CartrigeParseError Unit :=
  if h.get_mapper_id = 0 then .ok () else .error (.UnknownMapperIdError h.get_mapper_id)

/-- The parsed cartridge (`struct Cartrige`): header plus the consumed PRG
and CHR byte ranges (the mapper box itself carries no extra data beyond the
header here). -/
structure Cartrige where
  header : Header
  prg_mem : List Nat
  chr_mem : List Nat
deriving Repr, DecidableEq

/-- `Cartrige::from_bytes`, from `src/src/hardware/cartrige/mod.rs`. -/
def Cartrige.from_bytes (bytes : List Nat) : Except CartrigeParseError Cartrige := do
  let (magic, rest) ← try_get_next_n bytes 4
  if magic ≠ NES_MAGIC_NUMBERS then
    throw .MissingMagicNumbersError
  let (prg_size, rest) ← try_get_next rest
  let (chr_size, rest) ← try_get_next rest
  let (flags6, rest) ← try_get_next rest
  let (flags7, rest) ← try_get_next rest
  let (flags8, rest) ← try_get_next rest
  let (flags9, rest) ← try_get_next rest
  let (flags10, rest) ← try_get_next rest
  let (_, rest) ← try_get_next_n rest 5
  let header : Header := ⟨prg_size, chr_size, flags6, flags7, flags8, flags9, flags10⟩
  let rest ← do
    if header.get_has_trainer then
      let (_, r) ← try_get_next_n rest 512
      pure r
    else pure rest
  let (prg_mem, rest) ← try_get_next_n rest (16384 * prg_size)
  let (chr_mem, _) ← try_get_next_n rest (8192 * chr_size)
  let _ ← from_header header
  return ⟨header, prg_mem, chr_mem⟩

/- The older flat bus (`src/src/hardware/bus.rs`, `struct Bus`) that the
disassembler (`src/src/disassembler/mod.rs`) instantiates.  The disassembler
never inserts a cartridge, so this is the `cartrige: None` specialization:
reads at `0x8000..` return 0 and writes there are dropped. -/
structure Bus0 where
  memory : Nat → Nat

/-- `Bus::new`: zeroed 64 KiB, then `0xFF` written over `0x4000..0x4020`. -/
def Bus0.new : Bus0 :=
  ⟨(List.range' 0x4000 0x20).foldl
    (fun f addr => fun i => if i = addr then 0xFF else f i) (fun _ => 0)⟩

/-- `Bus::read` (cartridge absent). -/
def Bus0.read (b : Bus0) (address : Nat) : Nat :=
  if address < 0x8000 then b.memory address else 0

/-- `Bus::write` (cartridge absent). -/
def Bus0.write (b : Bus0) (address value : Nat) : Bus0 :=
  if address < 0x8000 then
    ⟨fun i => if i = address then value else b.memory i⟩
  else b

/-- `Bus::read_u16`; the `address + 1` is unchecked `u16` addition. -/
def Bus0.read_u16 (b : Bus0) (address : Nat) : Option Nat :=
  (u16chk (address + 1)).map fun a1 =>
    ((b.read a1) <<< 8) ||| b.read address

/-- `Bus::write_u16`: raw stores into the 64 KiB array (always in bounds for
a `u16` index); the `address + 1` is unchecked. -/
def Bus0.write_u16 (b : Bus0) (address value : Nat) : Option Bus0 :=
  (u16chk (address + 1)).map fun a1 =>
    ⟨fun i => if i = a1 then value >>> 8
              else if i = address then value &&& 0x00FF
              else b.memory i⟩

/-- The loop body of `Bus::write_memory`: `write(start + i, memory[i])` with
an unchecked `start + i` `u16` addition each round. -/
def Bus0.write_memory_aux (b : Bus0) (start : Nat) (mem : List Nat) (i : Nat) :
    Option Bus0 :=
  match mem with
  | [] => some b
  | v :: vs =>
    (u16chk (start + i)).bind fun a =>
      Bus0.write_memory_aux (b.write a v) start vs (i + 1)

/-- `Bus::write_memory`. -/
def Bus0.write_memory (b : Bus0) (start : Nat) (mem : List Nat) : Option Bus0 :=
  Bus0.write_memory_aux b start mem 0

/-- The addressing-mode factories run against the older flat `Bus`
(`Bus0`), as `Dissasembler` does through `Cpu::get_next_instruction`
(`disassembler/mod.rs` hands the factories a `bus::Bus`).  Reads on `Bus0`
are pure, so only the mode comes back; the partiality is the same unchecked
`u16` arithmetic as in `runFactory`. -/
def runFactoryOld (f : FactoryId) (c : Cpu) (b : Bus0) : Option Mode :=
  match f with
  | .IMPLICIT =>
    some { target := .implicit, pc_offset := 0, extra := 0, display := "" }
  | .ACCUMULATOR =>
    some { target := .accumulator, pc_offset := 0, extra := 0, display := "A" }
  | .IMMEDIATE =>
    let address := c.program_counter
    let value := b.read address
    some { target := .memory address, pc_offset := 1, extra := 0,
           display := "#" ++ format_hex_u8 value }
  | .ZERO_PAGE =>
    let address := b.read c.program_counter
    let value := b.read address
    some { target := .memory address, pc_offset := 1, extra := 0,
           display := format_hex_u8 (address % 256) ++ " = " ++ hexPad value 2 }
  | .ZERO_PAGE_X_OFFSET =>
    let address := b.read c.program_counter
    let offset_address := u8wadd address c.x
    let value := b.read offset_address
    some { target := .memory offset_address, pc_offset := 1, extra := 0,
           display := format_hex_u8 (address % 256) ++ ",X @ " ++ hexPad offset_address 2
             ++ " = " ++ hexPad value 2 }
  | .ZERO_PAGE_Y_OFFSET =>
    let address := b.read c.program_counter
    let offset_address := u8wadd address c.y
    let value := b.read offset_address
    some { target := .memory offset_address, pc_offset := 1, extra := 0,
           display := format_hex_u8 (address % 256) ++ ",Y @ " ++ hexPad offset_address 2
             ++ " = " ++ hexPad value 2 }
  | .ABSOLUTE =>
    (b.read_u16 c.program_counter).map fun address =>
      let value := b.read address
      { target := .memory address, pc_offset := 2, extra := 0,
        display := format_hex_u16 address ++ " = " ++ hexPad value 2 }
  | .ABSOLUTE_JMP =>
    (b.read_u16 c.program_counter).map fun address =>
      { target := .memory address, pc_offset := 2, extra := 0,
        display := format_hex_u16 address }
  | .ABSOLUTE_X_OFFSET =>
    (b.read_u16 c.program_counter).bind fun address =>
      (u16chk (address + c.x)).map fun offset_address =>
        let value := b.read offset_address
        let add_cycle := offset_address &&& 0xFF00 ≠ address &&& 0xFF00
        { target := .memory offset_address, pc_offset := 2,
          extra := if add_cycle then 1 else 0,
          display := format_hex_u16 address ++ ",X @ " ++ hexPad offset_address 4
            ++ " = " ++ hexPad value 2 }
  | .ABSOLUTE_Y_OFFSET =>
    (b.read_u16 c.program_counter).map fun address =>
      let offset_address := u16wadd address c.y
      let value := b.read offset_address
      let add_cycle := offset_address &&& 0xFF00 ≠ address &&& 0xFF00
      { target := .memory offset_address, pc_offset := 2,
        extra := if add_cycle then 1 else 0,
        display := format_hex_u16 address ++ ",Y @ " ++ hexPad offset_address 4
          ++ " = " ++ hexPad value 2 }
  | .INDIRECT =>
    (b.read_u16 c.program_counter).bind fun pointer_address =>
      let low := b.read pointer_address
      (u16chk (pointer_address + 1)).map fun p1 =>
        let high_address := (pointer_address &&& 0xFF00) ||| (p1 &&& 0x00FF)
        let high := b.read high_address
        let address := (high <<< 8) ||| low
        { target := .memory address, pc_offset := 2, extra := 0,
          display := "(" ++ format_hex_u16 pointer_address ++ ") = " ++ hexPad address 4 }
  | .INDIRECT_X_OFFSET =>
    let argument := b.read c.program_counter
    let pointer_address := u8wadd argument c.x
    let low := b.read pointer_address
    let high_address := (pointer_address &&& 0xFF00) ||| ((pointer_address + 1) &&& 0x00FF)
    let high := b.read high_address
    let address := (high <<< 8) ||| low
    let value := b.read address
    some { target := .memory address, pc_offset := 1, extra := 0,
           display := "(" ++ format_hex_u8 argument ++ ",X) @ " ++ hexPad pointer_address 2
             ++ " = " ++ hexPad address 4 ++ " = " ++ hexPad value 2 }
  | .INDIRECT_Y_OFFSET =>
    let argument := b.read c.program_counter
    let low := b.read argument
    let high_addr := (argument &&& 0xFF00) ||| ((argument + 1) &&& 0x00FF)
    let high := b.read high_addr
    let address := (high <<< 8) ||| low
    let offset_address := u16wadd address c.y
    let add_cycle := offset_address &&& 0xFF00 ≠ address &&& 0xFF00
    let value := b.read offset_address
    some { target := .memory offset_address, pc_offset := 1,
           extra := if add_cycle then 1 else 0,
           display := "(" ++ format_hex_u8 (argument % 256) ++ "),Y = " ++ hexPad address 4
             ++ " @ " ++ hexPad offset_address 4 ++ " = " ++ hexPad value 2 }
  | .RELATIVE =>
    let address := c.program_counter
    let value := toI8 (b.read address)
    some { target := .relative address, pc_offset := 1, extra := 0,
           display := format_hex_u16 (i32toU16 ((address : Int) + value + 1)) }

/-- The decoded-instruction data `Dissasembler` consumes: name, rendered
operand, operand byte count and the illegal marker. -/
structure InstrD where
  name : String
  display : String
  pc_offset : Nat
  illegal : Bool
deriving Repr

/-- `Instruction::disassemble_instruction`:
`"{*-or-space}{name} {mode display}"`. -/
def disassemble_instruction (i : InstrD) : String :=
  (if i.illegal then "*" else " ") ++ i.name ++ " " ++ i.display

/-- `Cpu::get_next_instruction` against the disassembler's bus: fetch the
opcode byte, advance the program counter past opcode and operands (unchecked
`u16` `+=`s) and build the instruction. -/
def get_next_instruction (c : Cpu) (b : Bus0) : Option (InstrD × Cpu) :=
  let instruction_code := b.read c.program_counter
  (u16chk (c.program_counter + 1)).bind fun pc1 =>
  let c := { c with program_counter := pc1 }
  let e := INSTRUCTIONS_LOOKUP.getD instruction_code (ent .NOP .IMPLICIT 2 "NOP" false false)
  (runFactoryOld e.mode c b).bind fun m =>
  (u16chk (c.program_counter + m.pc_offset)).map fun pc2 =>
    (⟨e.name, m.display, m.pc_offset, e.illegal⟩, { c with program_counter := pc2 })

/-- `Cpu::reset` as called by `Dissasembler::new`: reinitialize and load the
program counter from `read_u16(0xFFFC)` of the disassembler bus. -/
def Cpu.resetOld (b : Bus0) : Option Cpu :=
  (b.read_u16 0xFFFC).map fun pc => { Cpu.new with program_counter := pc }

/-- `struct Dissasembler` (sic), from `src/src/disassembler/mod.rs`. -/
structure Dissasembler where
  cpu : Cpu
  bus : Bus0
  endAddr : Nat

/-- `Dissasembler::new`: write the start vector, reset the CPU, then hand
the program bytes to `bus.write_memory` — which routes them through the
bus decoder. -/
def Dissasembler.new (start : Nat) (memory : List Nat) : Option Dissasembler := do
  let cpu := Cpu.new
  let bus := Bus0.new
  let bus ← bus.write_u16 0xFFFC start
  let cpu ← Cpu.resetOld bus
  let bus ← bus.write_memory start memory
  let e ← u16chk (start + memory.length)
  return ⟨cpu, bus, e⟩

/-- The `Dissasembler::disassemble` loop, producing the emitted lines in
order (fuel-bounded; the source loops until the program counter passes
`end`).  Each round emits one line and stops after it if the program counter
has reached the end address. -/
def disassembleLines (fuel : Nat) (d : Dissasembler) : List String :=
  match fuel with
  | 0 => []
  | fuel + 1 =>
    match get_next_instruction d.cpu d.bus with
    | none => []
    | some (i, c) =>
      disassemble_instruction i ::
        (if d.endAddr ≤ c.program_counter then []
         else disassembleLines fuel { d with cpu := c })

/-- `Dissasembler::disassemble`: the lines joined with newlines and the
whole output trimmed. -/
def disassembleD (fuel : Nat) (d : Dissasembler) : String :=
  (String.join ((disassembleLines fuel d).map (fun s => s ++ "\n"))).trim

/-- The fibonacci byte sequence of the disassembler test and the spec. -/
def fibBytes : List Nat :=
  [0xA9, 0x00, 0x85, 0x00, 0xA9, 0x01, 0x85, 0x01, 0xA2, 0x00, 0xB5, 0x00,
   0x18, 0x75, 0x01, 0x95, 0x02, 0xE8, 0x90, 0xF6, 0xE8]

/- Bit-level helper lemmas. -/

theorem pos_and_two_pow (x k : Nat) : 0 < x &&& 2 ^ k ↔ x.testBit k := by
  constructor
  · intro h
    obtain ⟨i, hi⟩ := Nat.ne_zero_implies_bit_true (Nat.not_eq_zero_of_lt h)
    rw [Nat.testBit_and] at hi
    obtain ⟨hx, hp⟩ := Bool.and_eq_true_iff.mp hi
    rw [Nat.testBit_two_pow] at hp
    have hk : k = i := of_decide_eq_true hp
    rw [hk]
    exact hx
  · intro h
    by_contra hz
    have h0 : x &&& 2 ^ k = 0 := by omega
    have hbit : (x &&& 2 ^ k).testBit k = true := by
      simp [Nat.testBit_and, h, Nat.testBit_two_pow_self]
    rw [h0, Nat.zero_testBit] at hbit
    exact Bool.false_ne_true hbit

theorem testBit_255 (k : Nat) : (255 : Nat).testBit k = decide (k < 8) := by
  have h : (255 : Nat) = 2 ^ 8 - 1 := by norm_num
  rw [h, Nat.testBit_two_pow_sub_one]

theorem and_255_eq_mod (x : Nat) : x &&& 255 = x % 256 := by
  have h : (255 : Nat) = 2 ^ 8 - 1 := by norm_num
  have h2 : (256 : Nat) = 2 ^ 8 := by norm_num
  rw [h, h2, Nat.and_pow_two_sub_one_eq_mod]

/-- `set_flag` leaves a status bit alone when the flag does not carry it. -/
theorem set_flag_testBit_of_ne (c : Cpu) (f : Nat) (v : Bool) (k : Nat)
    (hk : k < 8) (h1 : f.testBit k = false) :
    (c.set_flag f v).status.testBit k = c.status.testBit k := by
  unfold Cpu.set_flag
  cases v
  · simp [Nat.testBit_and, Nat.testBit_xor, h1, testBit_255, hk]
  · simp [Nat.testBit_or, h1]

/-- `set_flag` overwrites the status bit its flag carries. -/
theorem set_flag_testBit_self (c : Cpu) (f : Nat) (v : Bool) (k : Nat)
    (hk : k < 8) (h1 : f.testBit k = true) :
    (c.set_flag f v).status.testBit k = v := by
  unfold Cpu.set_flag
  cases v
  · simp [Nat.testBit_and, Nat.testBit_xor, h1, testBit_255, hk]
  · simp [Nat.testBit_or, h1]

/- Status-byte plumbing lemmas: nothing but `set_flag` (and `PLP`/`RTI`/`BRK`'s
direct assignments) ever touches `status`. -/

@[simp] theorem push_stack_status (c : Cpu) (v : Nat) (b : CpuBus) :
    (c.push_stack v b).1.status = c.status := by
  simp [Cpu.push_stack]

@[simp] theorem push_stack_u16_status (c : Cpu) (v : Nat) (b : CpuBus) :
    (c.push_stack_u16 v b).1.status = c.status := by
  simp [Cpu.push_stack_u16, Cpu.push_stack]

@[simp] theorem pop_stack_status (c : Cpu) (b : CpuBus) :
    (c.pop_stack b).2.1.status = c.status := by
  simp [Cpu.pop_stack]

@[simp] theorem pop_stack_u16_status (c : Cpu) (b : CpuBus) :
    (c.pop_stack_u16 b).2.1.status = c.status := by
  simp [Cpu.pop_stack_u16, Cpu.pop_stack]

@[simp] theorem modeWriteU8_status (m : Mode) (v : Nat) (c : Cpu) (b : CpuBus) :
    (modeWriteU8 m v c b).1.status = c.status := by
  unfold modeWriteU8
  cases m.target <;> simp

@[simp] theorem modeWriteMA_status (m : Mode) (ma : MemoryAddress) (c : Cpu) (b : CpuBus) :
    (modeWriteMA m ma c b).1.status = c.status := by
  unfold modeWriteMA
  cases m.target <;> simp

/- Per-operation bit-4 (`BREAK`) facts, used to settle the break-flag
invariant over the whole instruction set. -/

@[simp] theorem ADC_bit4 (c : Cpu) (b : CpuBus) (m : Mode) :
    (ADC c b m).1.status.testBit 4 = c.status.testBit 4 := by
  simp (disch := decide) [ADC, set_flag_testBit_of_ne]

@[simp] theorem ALR_bit4 (c : Cpu) (b : CpuBus) (m : Mode) :
    (ALR c b m).1.status.testBit 4 = c.status.testBit 4 := by
  simp (disch := decide) [ALR, set_flag_testBit_of_ne]

@[simp] theorem ANC_bit4 (c : Cpu) (b : CpuBus) (m : Mode) :
    (ANC c b m).1.status.testBit 4 = c.status.testBit 4 := by
  simp (disch := decide) [ANC, set_flag_testBit_of_ne]

@[simp] theorem AND_bit4 (c : Cpu) (b : CpuBus) (m : Mode) :
    (AND c b m).1.status.testBit 4 = c.status.testBit 4 := by
  simp (disch := decide) [AND, set_flag_testBit_of_ne]

@[simp] theorem ANE_bit4 (c : Cpu) (b : CpuBus) (m : Mode) :
    (ANE c b m).1.status.testBit 4 = c.status.testBit 4 := by
  simp [ANE]

@[simp] theorem ARR_bit4 (c : Cpu) (b : CpuBus) (m : Mode) :
    (ARR c b m).1.status.testBit 4 = c.status.testBit 4 := by
  simp (disch := decide) [ARR, set_flag_testBit_of_ne]

@[simp] theorem ASL_bit4 (c : Cpu) (b : CpuBus) (m : Mode) :
    (ASL c b m).1.status.testBit 4 = c.status.testBit 4 := by
  simp (disch := decide) [ASL, set_flag_testBit_of_ne]

@[simp] theorem branch_status (c : Cpu) (m : Mode) (a : Int) :
    (branch c m a).1.status = c.status := by
  simp [branch]

@[simp] theorem BCC_bit4 (c : Cpu) (b : CpuBus) (m : Mode) :
    (BCC c b m).1.status.testBit 4 = c.status.testBit 4 := by
  simp only [BCC]
  split <;> simp

@[simp] theorem BCS_bit4 (c : Cpu) (b : CpuBus) (m : Mode) :
    (BCS c b m).1.status.testBit 4 = c.status.testBit 4 := by
  simp only [BCS]
  split <;> simp

@[simp] theorem BEQ_bit4 (c : Cpu) (b : CpuBus) (m : Mode) :
    (BEQ c b m).1.status.testBit 4 = c.status.testBit 4 := by
  simp only [BEQ]
  split <;> simp

@[simp] theorem BIT_bit4 (c : Cpu) (b : CpuBus) (m : Mode) :
    (BIT c b m).1.status.testBit 4 = c.status.testBit 4 := by
  simp (disch := decide) [BIT, set_flag_testBit_of_ne]

@[simp] theorem BMI_bit4 (c : Cpu) (b : CpuBus) (m : Mode) :
    (BMI c b m).1.status.testBit 4 = c.status.testBit 4 := by
  simp only [BMI]
  split <;> simp

@[simp] theorem BNE_bit4 (c : Cpu) (b : CpuBus) (m : Mode) :
    (BNE c b m).1.status.testBit 4 = c.status.testBit 4 := by
  simp only [BNE]
  split <;> simp

@[simp] theorem BPL_bit4 (c : Cpu) (b : CpuBus) (m : Mode) :
    (BPL c b m).1.status.testBit 4 = c.status.testBit 4 := by
  simp only [BPL]
  split <;> simp

@[simp] theorem BVC_bit4 (c : Cpu) (b : CpuBus) (m : Mode) :
    (BVC c b m).1.status.testBit 4 = c.status.testBit 4 := by
  simp only [BVC]
  split <;> simp

@[simp] theorem BVS_bit4 (c : Cpu) (b : CpuBus) (m : Mode) :
    (BVS c b m).1.status.testBit 4 = c.status.testBit 4 := by
  simp only [BVS]
  split <;> simp

@[simp] theorem CLC_bit4 (c : Cpu) (b : CpuBus) (m : Mode) :
    (CLC c b m).1.status.testBit 4 = c.status.testBit 4 := by
  simp (disch := decide) [CLC, set_flag_testBit_of_ne]

@[simp] theorem CLD_bit4 (c : Cpu) (b : CpuBus) (m : Mode) :
    (CLD c b m).1.status.testBit 4 = c.status.testBit 4 := by
  simp (disch := decide) [CLD, set_flag_testBit_of_ne]

@[simp] theorem CLI_bit4 (c : Cpu) (b : CpuBus) (m : Mode) :
    (CLI c b m).1.status.testBit 4 = c.status.testBit 4 := by
  simp (disch := decide) [CLI, set_flag_testBit_of_ne]

@[simp] theorem CLV_bit4 (c : Cpu) (b : CpuBus) (m : Mode) :
    (CLV c b m).1.status.testBit 4 = c.status.testBit 4 := by
  simp (disch := decide) [CLV, set_flag_testBit_of_ne]

@[simp] theorem CMP_bit4 (c : Cpu) (b : CpuBus) (m : Mode) :
    (CMP c b m).1.status.testBit 4 = c.status.testBit 4 := by
  simp (disch := decide) [CMP, set_flag_testBit_of_ne]

@[simp] theorem CPX_bit4 (c : Cpu) (b : CpuBus) (m : Mode) :
    (CPX c b m).1.status.testBit 4 = c.status.testBit 4 := by
  simp (disch := decide) [CPX, set_flag_testBit_of_ne]

@[simp] theorem CPY_bit4 (c : Cpu) (b : CpuBus) (m : Mode) :
    (CPY c b m).1.status.testBit 4 = c.status.testBit 4 := by
  simp (disch := decide) [CPY, set_flag_testBit_of_ne]

@[simp] theorem DCP_bit4 (c : Cpu) (b : CpuBus) (m : Mode) :
    (DCP c b m).1.status.testBit 4 = c.status.testBit 4 := by
  simp [DCP]

@[simp] theorem DEC_bit4 (c : Cpu) (b : CpuBus) (m : Mode) :
    (DEC c b m).1.status.testBit 4 = c.status.testBit 4 := by
  simp (disch := decide) [DEC, set_flag_testBit_of_ne]

@[simp] theorem DEX_bit4 (c : Cpu) (b : CpuBus) (m : Mode) :
    (DEX c b m).1.status.testBit 4 = c.status.testBit 4 := by
  simp (disch := decide) [DEX, set_flag_testBit_of_ne]

@[simp] theorem DEY_bit4 (c : Cpu) (b : CpuBus) (m : Mode) :
    (DEY c b m).1.status.testBit 4 = c.status.testBit 4 := by
  simp (disch := decide) [DEY, set_flag_testBit_of_ne]

@[simp] theorem EOR_bit4 (c : Cpu) (b : CpuBus) (m : Mode) :
    (EOR c b m).1.status.testBit 4 = c.status.testBit 4 := by
  simp (disch := decide) [EOR, set_flag_testBit_of_ne]

@[simp] theorem INC_bit4 (c : Cpu) (b : CpuBus) (m : Mode) :
    (INC c b m).1.status.testBit 4 = c.status.testBit 4 := by
  simp (disch := decide) [INC, set_flag_testBit_of_ne]

@[simp] theorem INX_bit4 (c : Cpu) (b : CpuBus) (m : Mode) :
    (INX c b m).1.status.testBit 4 = c.status.testBit 4 := by
  simp (disch := decide) [INX, set_flag_testBit_of_ne]

@[simp] theorem INY_bit4 (c : Cpu) (b : CpuBus) (m : Mode) :
    (INY c b m).1.status.testBit 4 = c.status.testBit 4 := by
  simp (disch := decide) [INY, set_flag_testBit_of_ne]

@[simp] theorem SBC_bit4 (c : Cpu) (b : CpuBus) (m : Mode) :
    (SBC c b m).1.status.testBit 4 = c.status.testBit 4 := by
  simp (disch := decide) [SBC, set_flag_testBit_of_ne]

@[simp] theorem ISB_bit4 (c : Cpu) (b : CpuBus) (m : Mode) :
    (ISB c b m).1.status.testBit 4 = c.status.testBit 4 := by
  simp [ISB]

@[simp] theorem JAM_bit4 (c : Cpu) (b : CpuBus) (m : Mode) :
    (JAM c b m).1.status.testBit 4 = c.status.testBit 4 := by
  simp [JAM]

@[simp] theorem JMP_bit4 (c : Cpu) (b : CpuBus) (m : Mode) :
    (JMP c b m).1.status.testBit 4 = c.status.testBit 4 := by
  simp [JMP]

@[simp] theorem JSR_bit4 (c : Cpu) (b : CpuBus) (m : Mode) :
    (JSR c b m).1.status.testBit 4 = c.status.testBit 4 := by
  simp [JSR]

@[simp] theorem LAS_bit4 (c : Cpu) (b : CpuBus) (m : Mode) :
    (LAS c b m).1.status.testBit 4 = c.status.testBit 4 := by
  simp (disch := decide) [LAS, set_flag_testBit_of_ne]

@[simp] theorem LDA_bit4 (c : Cpu) (b : CpuBus) (m : Mode) :
    (LDA c b m).1.status.testBit 4 = c.status.testBit 4 := by
  simp (disch := decide) [LDA, set_flag_testBit_of_ne]

@[simp] theorem LDX_bit4 (c : Cpu) (b : CpuBus) (m : Mode) :
    (LDX c b m).1.status.testBit 4 = c.status.testBit 4 := by
  simp (disch := decide) [LDX, set_flag_testBit_of_ne]

@[simp] theorem LDY_bit4 (c : Cpu) (b : CpuBus) (m : Mode) :
    (LDY c b m).1.status.testBit 4 = c.status.testBit 4 := by
  simp (disch := decide) [LDY, set_flag_testBit_of_ne]

@[simp] theorem LAX_bit4 (c : Cpu) (b : CpuBus) (m : Mode) :
    (LAX c b m).1.status.testBit 4 = c.status.testBit 4 := by
  simp [LAX]

@[simp] theorem LSR_bit4 (c : Cpu) (b : CpuBus) (m : Mode) :
    (LSR c b m).1.status.testBit 4 = c.status.testBit 4 := by
  simp (disch := decide) [LSR, set_flag_testBit_of_ne]

@[simp] theorem LXA_bit4 (c : Cpu) (b : CpuBus) (m : Mode) :
    (LXA c b m).1.status.testBit 4 = c.status.testBit 4 := by
  simp [LXA]

@[simp] theorem NOP_bit4 (c : Cpu) (b : CpuBus) (m : Mode) :
    (NOP c b m).1.status.testBit 4 = c.status.testBit 4 := by
  simp [NOP]

@[simp] theorem ORA_bit4 (c : Cpu) (b : CpuBus) (m : Mode) :
    (ORA c b m).1.status.testBit 4 = c.status.testBit 4 := by
  simp (disch := decide) [ORA, set_flag_testBit_of_ne]

@[simp] theorem PHA_bit4 (c : Cpu) (b : CpuBus) (m : Mode) :
    (PHA c b m).1.status.testBit 4 = c.status.testBit 4 := by
  simp [PHA]

@[simp] theorem PHP_bit4 (c : Cpu) (b : CpuBus) (m : Mode) :
    (PHP c b m).1.status.testBit 4 = c.status.testBit 4 := by
  simp [PHP]

@[simp] theorem PLA_bit4 (c : Cpu) (b : CpuBus) (m : Mode) :
    (PLA c b m).1.status.testBit 4 = c.status.testBit 4 := by
  simp (disch := decide) [PLA, set_flag_testBit_of_ne, Cpu.pop_stack]

/-- The status `PLP` pops always comes back with `BREAK` cleared. -/
@[simp] theorem PLP_bit4 (c : Cpu) (b : CpuBus) (m : Mode) :
    (PLP c b m).1.status.testBit 4 = false := by
  have h1 : Nat.testBit (u8not BREAK) 4 = false := by decide
  have h2 : Nat.testBit UNUSED 4 = false := by decide
  simp [PLP, Cpu.pop_stack, Nat.testBit_or, Nat.testBit_and, h1, h2]

@[simp] theorem ROL_bit4 (c : Cpu) (b : CpuBus) (m : Mode) :
    (ROL c b m).1.status.testBit 4 = c.status.testBit 4 := by
  simp (disch := decide) [ROL, set_flag_testBit_of_ne]

@[simp] theorem RLA_bit4 (c : Cpu) (b : CpuBus) (m : Mode) :
    (RLA c b m).1.status.testBit 4 = c.status.testBit 4 := by
  simp [RLA]

@[simp] theorem ROR_bit4 (c : Cpu) (b : CpuBus) (m : Mode) :
    (ROR c b m).1.status.testBit 4 = c.status.testBit 4 := by
  simp (disch := decide) [ROR, set_flag_testBit_of_ne]

@[simp] theorem RRA_bit4 (c : Cpu) (b : CpuBus) (m : Mode) :
    (RRA c b m).1.status.testBit 4 = c.status.testBit 4 := by
  simp [RRA]

/-- The status `RTI` pops always comes back with `BREAK` cleared. -/
@[simp] theorem RTI_bit4 (c : Cpu) (b : CpuBus) (m : Mode) :
    (RTI c b m).1.status.testBit 4 = false := by
  have h1 : Nat.testBit (u8not BREAK) 4 = false := by decide
  have h2 : Nat.testBit UNUSED 4 = false := by decide
  simp [RTI, Cpu.pop_stack, Cpu.pop_stack_u16, Nat.testBit_or, Nat.testBit_and, h1, h2]

theorem RTS_status (c : Cpu) (b : CpuBus) (m : Mode) (r : Cpu × CpuBus × Mode)
    (h : RTS c b m = some r) : r.1.status = c.status := by
  simp only [RTS, Option.map_eq_some'] at h
  obtain ⟨a, ha, rfl⟩ := h
  simp

@[simp] theorem SAX_bit4 (c : Cpu) (b : CpuBus) (m : Mode) :
    (SAX c b m).1.status.testBit 4 = c.status.testBit 4 := by
  simp [SAX]

@[simp] theorem SBX_bit4 (c : Cpu) (b : CpuBus) (m : Mode) :
    (SBX c b m).1.status.testBit 4 = c.status.testBit 4 := by
  simp (disch := decide) [SBX, set_flag_testBit_of_ne]

@[simp] theorem SEC_bit4 (c : Cpu) (b : CpuBus) (m : Mode) :
    (SEC c b m).1.status.testBit 4 = c.status.testBit 4 := by
  simp (disch := decide) [SEC, set_flag_testBit_of_ne]

@[simp] theorem SED_bit4 (c : Cpu) (b : CpuBus) (m : Mode) :
    (SED c b m).1.status.testBit 4 = c.status.testBit 4 := by
  simp (disch := decide) [SED, set_flag_testBit_of_ne]

@[simp] theorem SEI_bit4 (c : Cpu) (b : CpuBus) (m : Mode) :
    (SEI c b m).1.status.testBit 4 = c.status.testBit 4 := by
  simp (disch := decide) [SEI, set_flag_testBit_of_ne]

@[simp] theorem SHA_bit4 (c : Cpu) (b : CpuBus) (m : Mode) :
    (SHA c b m).1.status.testBit 4 = c.status.testBit 4 := by
  simp [SHA]

@[simp] theorem SHY_bit4 (c : Cpu) (b : CpuBus) (m : Mode) :
    (SHY c b m).1.status.testBit 4 = c.status.testBit 4 := by
  simp [SHY]

@[simp] theorem SHX_bit4 (c : Cpu) (b : CpuBus) (m : Mode) :
    (SHX c b m).1.status.testBit 4 = c.status.testBit 4 := by
  simp [SHX]

@[simp] theorem SLO_bit4 (c : Cpu) (b : CpuBus) (m : Mode) :
    (SLO c b m).1.status.testBit 4 = c.status.testBit 4 := by
  simp [SLO]

@[simp] theorem SRE_bit4 (c : Cpu) (b : CpuBus) (m : Mode) :
    (SRE c b m).1.status.testBit 4 = c.status.testBit 4 := by
  simp [SRE]

@[simp] theorem STA_bit4 (c : Cpu) (b : CpuBus) (m : Mode) :
    (STA c b m).1.status.testBit 4 = c.status.testBit 4 := by
  simp [STA]

@[simp] theorem STX_bit4 (c : Cpu) (b : CpuBus) (m : Mode) :
    (STX c b m).1.status.testBit 4 = c.status.testBit 4 := by
  simp [STX]

@[simp] theorem STY_bit4 (c : Cpu) (b : CpuBus) (m : Mode) :
    (STY c b m).1.status.testBit 4 = c.status.testBit 4 := by
  simp [STY]

@[simp] theorem TAS_bit4 (c : Cpu) (b : CpuBus) (m : Mode) :
    (TAS c b m).1.status.testBit 4 = c.status.testBit 4 := by
  simp [TAS]

@[simp] theorem TAX_bit4 (c : Cpu) (b : CpuBus) (m : Mode) :
    (TAX c b m).1.status.testBit 4 = c.status.testBit 4 := by
  simp (disch := decide) [TAX, set_flag_testBit_of_ne]

@[simp] theorem TAY_bit4 (c : Cpu) (b : CpuBus) (m : Mode) :
    (TAY c b m).1.status.testBit 4 = c.status.testBit 4 := by
  simp (disch := decide) [TAY, set_flag_testBit_of_ne]

@[simp] theorem TSX_bit4 (c : Cpu) (b : CpuBus) (m : Mode) :
    (TSX c b m).1.status.testBit 4 = c.status.testBit 4 := by
  simp (disch := decide) [TSX, set_flag_testBit_of_ne]

@[simp] theorem TXA_bit4 (c : Cpu) (b : CpuBus) (m : Mode) :
    (TXA c b m).1.status.testBit 4 = c.status.testBit 4 := by
  simp (disch := decide) [TXA, set_flag_testBit_of_ne]

@[simp] theorem TXS_bit4 (c : Cpu) (b : CpuBus) (m : Mode) :
    (TXS c b m).1.status.testBit 4 = c.status.testBit 4 := by
  simp [TXS]

@[simp] theorem TYA_bit4 (c : Cpu) (b : CpuBus) (m : Mode) :
    (TYA c b m).1.status.testBit 4 = c.status.testBit 4 := by
  simp (disch := decide) [TYA, set_flag_testBit_of_ne]

/-- Bus well-formedness: every stored byte is an actual byte (what the Rust
`u8` types guarantee). -/
def BusWF (b : CpuBus) : Prop :=
  (∀ a, b.cpu_ram a < 256) ∧ b.last_read < 256 ∧
    ∀ c, b.cartrige = some c → ∀ i, c.prg i < 256

/-- Every byte a well-formed bus returns is below 256. -/
theorem read_lt_256 (b : CpuBus) (a : Nat) (h : BusWF b) : (b.read a).1 < 256 := by
  obtain ⟨hram, hlast, hcart⟩ := h
  show (if a < 0x2000 then b.cpu_ram (a &&& 0x7FF)
       else if a < 0x4000 then 0
       else if a < 0x4020 then 0xFF
       else
         match b.cartrige with
         | some c => (c.readCpu a).getD b.last_read
         | none => 0) < 256
  split
  · exact hram _
  split
  · decide
  split
  · decide
  cases hc : b.cartrige with
  | none => simp
  | some c =>
    simp only [Cart0.readCpu]
    cases hmr : Cart0.map_read c a with
    | none => simpa using hlast
    | some off => simpa using hcart c hc off

set_option maxRecDepth 4000 in
/-- Opcode `0x00` is the only `BRK` entry of the table. -/
theorem lookup_brk_only :
    ∀ i, i < 256 → i ≠ 0 →
      (INSTRUCTIONS_LOOKUP.getD i (ent .NOP .IMPLICIT 2 "NOP" false false)).op ≠ OpId.BRK := by
  decide

/-- Every operation except `BRK` leaves a clear `BREAK` bit clear in the live
status register (`PLP` and `RTI` in fact force it clear). -/
theorem execOp_bit4_clear (o : OpId) (c : Cpu) (b : CpuBus) (m : Mode)
    (r : Cpu × CpuBus × Mode) (hne : o ≠ OpId.BRK)
    (h : execOp o c b m = some r) (hB : c.status.testBit 4 = false) :
    r.1.status.testBit 4 = false := by
  cases o <;>
    first
    | exact absurd rfl hne
    | (simp only [execOp] at h
       rw [RTS_status c b m r h]
       exact hB)
    | (simp only [execOp, Option.some.injEq] at h
       subst h
       simp [hB])

/- ===== Claim C9 ===== -/

/-- C9: `CpuBus::write_u16` stores its two bytes directly into the 2 KiB RAM
array without the mirroring mask, so it is defined exactly when
`address + 1 < 0x800` (for every address ≥ 0x7FF the indexing is out of
range), unlike `CpuBus::write`, which masks every address in
`0x0000..0x1FFF` with `0x7FF`. -/
theorem write_u16_raw_write_masked (b : CpuBus) (a v : Nat) (ha : a ≤ 0xFFFF) :
    ((b.write_u16 a v).isSome ↔ a + 1 < 0x800)
    ∧ (∀ b', b.write_u16 a v = some b' →
        b'.cpu_ram a = v &&& 0xFF ∧ b'.cpu_ram (a + 1) = v >>> 8 ∧
        ∀ i, i ≠ a → i ≠ a + 1 → b'.cpu_ram i = b.cpu_ram i)
    ∧ (∀ a' v', a' < 0x2000 →
        (b.write a' v').cpu_ram (a' &&& 0x7FF) = v' ∧
        ∀ i, i ≠ a' &&& 0x7FF → (b.write a' v').cpu_ram i = b.cpu_ram i) := by
  refine ⟨?_, ?_, ?_⟩
  · by_cases h1 : a + 1 ≤ 0xFFFF
    · by_cases h2 : a < 0x800 ∧ a + 1 < 0x800 <;>
        simp [CpuBus.write_u16, u16chk, h1, h2] <;> omega
    · simp [CpuBus.write_u16, u16chk, h1]
      omega
  · intro b' hw
    simp only [CpuBus.write_u16, u16chk, Option.bind_eq_some] at hw
    obtain ⟨a1, ha1, hw⟩ := hw
    split at ha1
    · obtain rfl : a + 1 = a1 := by simpa using ha1
      split at hw
      · obtain rfl : _ = b' := by simpa using hw
        refine ⟨by simp, by simp, ?_⟩
        intro i hia hia1
        simp [hia, hia1]
      · simp at hw
    · simp at ha1
  · intro a' v' ha'
    constructor
    · simp [CpuBus.write, ha']
    · intro i hi
      simp [CpuBus.write, ha', hi]

def C9bus : CpuBus := ⟨fun _ => 0, none, 0⟩

/-- Witness for C9 at concrete inputs: writing at 0x100 is defined, writing
at 0x7FF is not. -/
theorem write_u16_raw_write_masked_witness :
    (C9bus.write_u16 0x100 0xABCD).isSome ∧ ¬ (C9bus.write_u16 0x7FF 0xABCD).isSome :=
  ⟨(write_u16_raw_write_masked C9bus 0x100 0xABCD (by decide)).1.mpr (by decide),
   fun hs => by
     have h := (write_u16_raw_write_masked C9bus 0x7FF 0xABCD (by decide)).1.mp hs
     omega⟩

/- ===== Claim C10 ===== -/

/-- C10: the `Absolute,X` factory computes its effective address with an
unchecked `u16` addition `base + X` — it is defined exactly when
`base + X ≤ 0xFFFF` and then yields exactly `base + X` — while the
`Absolute,Y` factory uses `wrapping_add` and always succeeds with
`(base + Y) mod 2^16`. -/
theorem absolute_x_checked_absolute_y_wrapping (c : Cpu) (b : CpuBus)
    (base : Nat) (b1 : CpuBus)
    (hru : b.read_u16 c.program_counter = some (base, b1)) :
    ((runFactory .ABSOLUTE_X_OFFSET c b).isSome ↔ base + c.x ≤ 0xFFFF)
    ∧ (base + c.x ≤ 0xFFFF →
        ∃ m b2, runFactory .ABSOLUTE_X_OFFSET c b = some (m, b2) ∧
          m.target = .memory (base + c.x))
    ∧ (∃ m b2, runFactory .ABSOLUTE_Y_OFFSET c b = some (m, b2) ∧
        m.target = .memory ((base + c.y) % 65536)) := by
  refine ⟨?_, ?_, ?_⟩
  · by_cases h : base + c.x ≤ 0xFFFF <;>
      simp [runFactory, hru, u16chk, h]
  · intro h
    have hrx : runFactory .ABSOLUTE_X_OFFSET c b =
        some ({ target := .memory (base + c.x), pc_offset := 2,
                extra := if (base + c.x) &&& 0xFF00 ≠ base &&& 0xFF00 then 1 else 0,
                display := format_hex_u16 base ++ ",X @ " ++ hexPad (base + c.x) 4
                  ++ " = " ++ hexPad (b1.read (base + c.x)).1 2 },
              (b1.read (base + c.x)).2) := by
      simp [runFactory, hru, u16chk, h]
    exact ⟨_, _, hrx, rfl⟩
  · have hry : runFactory .ABSOLUTE_Y_OFFSET c b =
        some ({ target := .memory (u16wadd base c.y), pc_offset := 2,
                extra := if (u16wadd base c.y) &&& 0xFF00 ≠ base &&& 0xFF00 then 1 else 0,
                display := format_hex_u16 base ++ ",Y @ " ++ hexPad (u16wadd base c.y) 4
                  ++ " = " ++ hexPad (b1.read (u16wadd base c.y)).1 2 },
              (b1.read (u16wadd base c.y)).2) := by
      simp [runFactory, hru]
    exact ⟨_, _, hry, by rw [show u16wadd base c.y = (base + c.y) % 65536 from rfl]⟩

def C10bus : CpuBus :=
  ⟨fun i => if i = 0 then 0xFF else if i = 1 then 0xFF else 0, none, 0⟩

def C10cpu : Cpu := { Cpu.new with x := 1, y := 1 }

/-- Witness for C10 at a concrete state: base `0xFFFF` with `X = Y = 1`
makes `Absolute,X` undefined while `Absolute,Y` wraps to `0x0000`. -/
theorem absolute_x_checked_absolute_y_wrapping_witness :
    ¬ (runFactory .ABSOLUTE_X_OFFSET C10cpu C10bus).isSome ∧
    (∃ m b2, runFactory .ABSOLUTE_Y_OFFSET C10cpu C10bus = some (m, b2) ∧
      m.target = .memory 0) := by
  have h := absolute_x_checked_absolute_y_wrapping C10cpu C10bus 0xFFFF
    ⟨C10bus.cpu_ram, none, 0xFF⟩ (by rfl)
  refine ⟨fun hs => ?_, by simpa using h.2.2⟩
  have h2 := h.1.mp hs
  rw [show C10cpu.x = 1 from rfl] at h2
  omega

/- ===== Claim C4 ===== -/

def C4cpu : Cpu := { Cpu.new with accumulator := 0xFF, x := 0 }

def C4bus : CpuBus := ⟨fun _ => 1, none, 0⟩

def C4mode : Mode := ⟨.memory 0, 1, 0, ""⟩

/-- C4 (code bug): `SBX` with `A = 0xFF`, `X = 0x00`, operand `M = 0x01`
does set `X ← (A & X) − M mod 256 = 0xFF` and takes Z/N from it, but its
carry compares the bare accumulator (`A ≥ M`, giving C = 1) instead of the
spec's `(A & X) ≥ M` (which is false here: `0 ≥ 1` fails). -/
theorem SBX_carry_compares_accumulator :
    (SBX C4cpu C4bus C4mode).1.x = 0xFF ∧
    (SBX C4cpu C4bus C4mode).1.get_flag CARRY = true ∧
    ¬ (1 ≤ C4cpu.accumulator &&& C4cpu.x) := by
  decide

/- ===== Claim C5 ===== -/

def C5header : Header := ⟨16, 0, 0x20, 0, 0, 0, 0⟩

/-- C5 (code bug): mapper 2 stores `value & 0x0F` (bank 4 here) on a CPU
write at `0x8000+`, but `map_read` computes `selected_bank × 16384 +
(addr & 0x3FFF)` in `u16` arithmetic, so for bank 4 at address `0x8000` the
exact flat offset `65536` does not fit and the multiplication overflows
(`none` here; a panic under Rust's overflow checks) instead of returning
the spec's `selected_bank × 16KiB + (addr & 0x3FFF)`. -/
theorem M002_bank4_offset_overflows :
    (M002.map_write (M002.new C5header) (.CpuAccess 0x8000) 0x04).2.selected_bank = 4 ∧
    M002.map_read ⟨C5header, 4⟩ (.CpuAccess 0x8000) = none ∧
    4 * 16384 + (0x8000 &&& 0x3FFF) = 65536 := by
  decide

/- ===== Claim C6 ===== -/

theorem and_ff00_eq (x : Nat) (hx : x < 65536) : x &&& 0xFF00 = 256 * (x / 256) := by
  apply Nat.eq_of_testBit_eq
  intro i
  have h1 : (0xFF00 : Nat) = 255 <<< 8 := by decide
  have h2 : 256 * (x / 256) = (x >>> 8) <<< 8 := by
    rw [Nat.shiftLeft_eq, Nat.shiftRight_eq_div_pow]
    norm_num [Nat.mul_comm]
  rw [Nat.testBit_and, h1, h2, Nat.testBit_shiftLeft, Nat.testBit_shiftLeft,
    Nat.testBit_shiftRight, testBit_255]
  by_cases h8 : 8 ≤ i
  · have hi : 8 + (i - 8) = i := by omega
    rw [hi]
    by_cases h16 : i < 16
    · simp [h8, show i - 8 < 8 by omega]
    · have hx2 : x < 2 ^ i := by
        have h65536 : (65536 : Nat) = 2 ^ 16 := by norm_num
        have hle : (2 : Nat) ^ 16 ≤ 2 ^ i := Nat.pow_le_pow_right (by norm_num) (by omega)
        omega
      have hz : x.testBit i = false := Nat.testBit_lt_two_pow hx2
      simp [hz]
  · simp [h8]

theorem or_mul256_eq_add (q r : Nat) (hr : r < 256) : 256 * q ||| r = 256 * q + r := by
  have h := Nat.mul_add_lt_is_or (i := 8) (show r < 2 ^ 8 by omega) q
  simpa using h.symm

def C6cpu : Cpu := Cpu.new

def C6bus : CpuBus := ⟨fun i => if i ≤ 1 then 0xFF else 0, none, 0⟩

/-- C6 counterexample: with the two operand bytes `FF FF`, the indirect-JMP
pointer is `$FFFF` — a pointer of the form `$xxFF` — yet the addressing
mode factory is undefined there (the unchecked `pointer_address + 1`
overflows `u16`, a panic under Rust's overflow checks) instead of fetching
the high byte from `$FF00` as the claim requires for every `$xxFF`
pointer. -/
theorem indirect_jmp_ffff_counterexample :
    (C6bus.read_u16 C6cpu.program_counter).map (fun r => r.1) = some 0xFFFF ∧
    runFactory .INDIRECT C6cpu C6bus = none := by
  constructor
  · rfl
  · rfl

/-- C6 (amended): for every 16-bit indirect-JMP pointer of the form `$xxFF`
other than `$FFFF`, the INDIRECT mode reads the low byte of the target from
the pointer and the high byte from `$xx00` (the same page, wrapped), and
`JMP` loads exactly that address into the program counter; for pointers not
ending in `0xFF` the high byte comes from `pointer + 1`.  At `$FFFF` the
unchecked `pointer + 1` addition overflows and the factory is undefined. -/
theorem indirect_jmp_page_wrap (c : Cpu) (b : CpuBus) (ptr : Nat) (b1 : CpuBus)
    (hru : b.read_u16 c.program_counter = some (ptr, b1)) (hp : ptr < 65536) :
    (ptr % 256 = 0xFF → ptr ≠ 0xFFFF →
      ∃ m b2, runFactory .INDIRECT c b = some (m, b2) ∧
        m.target = .memory
          ((((b1.read ptr).2.read (256 * (ptr / 256))).1 <<< 8) ||| (b1.read ptr).1) ∧
        ∀ c' b', (JMP c' b' m).1.program_counter =
          (((b1.read ptr).2.read (256 * (ptr / 256))).1 <<< 8) ||| (b1.read ptr).1)
    ∧ (ptr % 256 ≠ 0xFF →
      ∃ m b2, runFactory .INDIRECT c b = some (m, b2) ∧
        m.target = .memory
          ((((b1.read ptr).2.read (ptr + 1)).1 <<< 8) ||| (b1.read ptr).1))
    ∧ (ptr = 0xFFFF → runFactory .INDIRECT c b = none) := by
  refine ⟨?_, ?_, ?_⟩
  · intro hl hne
    have hp1 : ptr + 1 ≤ 0xFFFF := by omega
    have hha : (ptr &&& 0xFF00) ||| ((ptr + 1) &&& 0x00FF) = 256 * (ptr / 256) := by
      have e1 : (ptr + 1) &&& 0x00FF = 0 := by
        rw [show (0x00FF : Nat) = 255 from rfl, and_255_eq_mod]
        omega
      rw [e1, and_ff00_eq ptr hp, Nat.or_zero]
    have hrx : runFactory .INDIRECT c b =
        some ({ target := .memory
                  ((((b1.read ptr).2.read (256 * (ptr / 256))).1 <<< 8) ||| (b1.read ptr).1),
                pc_offset := 2, extra := 0,
                display := "(" ++ format_hex_u16 ptr ++ ") = "
                  ++ hexPad ((((b1.read ptr).2.read (256 * (ptr / 256))).1 <<< 8) ||| (b1.read ptr).1) 4 },
              ((b1.read ptr).2.read (256 * (ptr / 256))).2) := by
      simp [runFactory, hru, u16chk, hp1, hha]
      omega
    refine ⟨_, _, hrx, rfl, ?_⟩
    intro c' b'
    simp [JMP, modeReadMA]
  · intro hl
    have hne : ptr ≠ 0xFFFF := by omega
    have hp1 : ptr + 1 ≤ 0xFFFF := by omega
    have hha : (ptr &&& 0xFF00) ||| ((ptr + 1) &&& 0x00FF) = ptr + 1 := by
      have e1 : (ptr + 1) &&& 0x00FF = ptr % 256 + 1 := by
        rw [show (0x00FF : Nat) = 255 from rfl, and_255_eq_mod]
        omega
      rw [e1, and_ff00_eq ptr hp, or_mul256_eq_add _ _ (by omega)]
      omega
    have hrx : runFactory .INDIRECT c b =
        some ({ target := .memory
                  ((((b1.read ptr).2.read (ptr + 1)).1 <<< 8) ||| (b1.read ptr).1),
                pc_offset := 2, extra := 0,
                display := "(" ++ format_hex_u16 ptr ++ ") = "
                  ++ hexPad ((((b1.read ptr).2.read (ptr + 1)).1 <<< 8) ||| (b1.read ptr).1) 4 },
              ((b1.read ptr).2.read (ptr + 1)).2) := by
      simp [runFactory, hru, u16chk, hp1, hha]
      omega
    exact ⟨_, _, hrx, rfl⟩
  · intro hfe
    subst hfe
    simp [runFactory, hru, u16chk]

def C6wbus : CpuBus :=
  ⟨fun i => if i = 0 then 0xFF else if i = 1 then 0x02 else
    if i = 0x2FF then 0x34 else if i = 0x200 then 0x12 else 0, none, 0⟩

/-- Witness for the amended C6 at pointer `$02FF`: the low byte comes from
`$02FF` and the high byte from `$0200`, giving target `$1234`. -/
theorem indirect_jmp_page_wrap_witness :
    ∃ m b2, runFactory .INDIRECT C6cpu C6wbus = some (m, b2) ∧
      m.target = .memory 0x1234 := by
  have h := (indirect_jmp_page_wrap C6cpu C6wbus 0x2FF
    ⟨C6wbus.cpu_ram, none, 0x02⟩ (by rfl) (by decide)).1 (by decide) (by decide)
  obtain ⟨m, b2, hm, ht, _⟩ := h
  refine ⟨m, b2, hm, ?_⟩
  rw [ht]
  rfl

/- ===== Claim C8 ===== -/

/-- C8 (code bug): disassembling the fibonacci byte sequence at 0x8000 does
not yield `LDA #$00` and the following clean lines.  `Dissasembler::new`
routes the program bytes through the bus decoder, which drops writes at
`0x8000+` with no cartridge inserted, and the reset-vector read at `0xFFFC`
returns 0 for the same reason — so the CPU starts at `0x0000` over zeroed
memory and the first emitted line is `" BRK "` (opcode `0x00`, with the
one-character illegal-flag prefix and trailing mode separator the formatter
always adds), not `LDA #$00`. -/
theorem fibonacci_disassembly_diverges :
    (Dissasembler.new 0x8000 fibBytes).map (fun d => d.cpu.program_counter) = some 0 ∧
    (∀ fuel, (Dissasembler.new 0x8000 fibBytes).map
        (fun d => (disassembleLines (fuel + 1) d).head?) = some (some " BRK ")) ∧
    (" BRK " : String) ≠ "LDA #$00" := by
  refine ⟨rfl, fun fuel => rfl, by decide⟩

/- ===== Claim C2 ===== -/

/-- The branch condition each of the eight branch opcodes tests, from the
corresponding operations (`BPL`/`BMI` on N, `BVC`/`BVS` on V, `BCC`/`BCS`
on C, `BNE`/`BEQ` on Z); `none` for non-branch opcodes. -/
def branchCond (opcode : Nat) (c : Cpu) : Option Bool :=
  if opcode = 0x10 then some (!(c.get_flag NEGATIVE))
  else if opcode = 0x30 then some (c.get_flag NEGATIVE)
  else if opcode = 0x50 then some (!(c.get_flag OVERFLOW))
  else if opcode = 0x70 then some (c.get_flag OVERFLOW)
  else if opcode = 0x90 then some (!(c.get_flag CARRY))
  else if opcode = 0xB0 then some (c.get_flag CARRY)
  else if opcode = 0xD0 then some (!(c.get_flag ZERO))
  else if opcode = 0xF0 then some (c.get_flag ZERO)
  else none

/-- The common shape of the eight branch operations: read the relative
operand, and branch when the guard holds. -/
def branchResult (c : Cpu) (b : CpuBus) (m : Mode) (g : Bool) : Cpu × CpuBus × Mode :=
  let r := modeReadI8 m c b
  if g then
    let br := branch c m r.1
    (br.1, r.2, br.2)
  else (c, r.2, m)

theorem BCC_eq (c : Cpu) (b : CpuBus) (m : Mode) :
    BCC c b m = branchResult c b m (!(c.get_flag CARRY)) := rfl

theorem BCS_eq (c : Cpu) (b : CpuBus) (m : Mode) :
    BCS c b m = branchResult c b m (c.get_flag CARRY) := rfl

theorem BEQ_eq (c : Cpu) (b : CpuBus) (m : Mode) :
    BEQ c b m = branchResult c b m (c.get_flag ZERO) := rfl

theorem BNE_eq (c : Cpu) (b : CpuBus) (m : Mode) :
    BNE c b m = branchResult c b m (!(c.get_flag ZERO)) := rfl

theorem BMI_eq (c : Cpu) (b : CpuBus) (m : Mode) :
    BMI c b m = branchResult c b m (c.get_flag NEGATIVE) := rfl

theorem BPL_eq (c : Cpu) (b : CpuBus) (m : Mode) :
    BPL c b m = branchResult c b m (!(c.get_flag NEGATIVE)) := rfl

theorem BVC_eq (c : Cpu) (b : CpuBus) (m : Mode) :
    BVC c b m = branchResult c b m (!(c.get_flag OVERFLOW)) := rfl

theorem BVS_eq (c : Cpu) (b : CpuBus) (m : Mode) :
    BVS c b m = branchResult c b m (c.get_flag OVERFLOW) := rfl

/-- Shared fetch-execute computation for a branch-table entry: cost 2 when
the guard fails, 3 when it branches within the page of the program counter
after operand fetch, 4 when it crosses a page. -/
theorem fetchExec_branch (c : Cpu) (b : CpuBus) (opcode : Nat) (o : OpId)
    (name : String) (g : Bool) (operand : Nat)
    (hop : (b.read c.program_counter).1 = opcode)
    (hentry : INSTRUCTIONS_LOOKUP.getD opcode (ent .NOP .IMPLICIT 2 "NOP" false false)
      = ent o .RELATIVE 2 name true false)
    (hsem : ∀ c' b' m', c'.status = c.status →
      execOp o c' b' m' = some (branchResult c' b' m' g))
    (hoperand : (((b.read c.program_counter).2.read (c.program_counter + 1)).2.read
      (c.program_counter + 1)).1 = operand)
    (hpc : c.program_counter + 2 ≤ 0xFFFF) :
    ∃ req c' b', fetchExec c b = some (req, c', b') ∧
      req = (if g then
               (if i32toU16 ((((c.program_counter + 2 : Nat)) : Int) + toI8 operand) &&& 0xFF00
                   = (c.program_counter + 2) &&& 0xFF00 then 3 else 4)
             else 2) ∧
      c'.program_counter =
        (if g then i32toU16 ((((c.program_counter + 2 : Nat)) : Int) + toI8 operand)
         else c.program_counter + 2) := by
  have h1 : u16chk (c.program_counter + 1) = some (c.program_counter + 1) := by
    unfold u16chk
    rw [if_pos (by omega)]
  have h2 : u16chk (c.program_counter + 1 + 1) = some (c.program_counter + 2) := by
    unfold u16chk
    rw [if_pos (by omega)]
  simp only [fetchExec, hop, h1, Option.some_bind]
  rw [hentry]
  simp only [runFactory, ent, Option.some_bind]
  rw [h2]
  simp only [Option.some_bind]
  have hsem2 := hsem { c with program_counter := c.program_counter + 2 }
      ((b.read c.program_counter).2.read (c.program_counter + 1)).2
      { target := MTarget.relative (c.program_counter + 1), pc_offset := 1, extra := 0,
        display := format_hex_u16 (i32toU16 (((c.program_counter + 1 : Nat) : Int)
          + toI8 ((b.read c.program_counter).2.read (c.program_counter + 1)).1 + 1)) } rfl
  rw [hsem2]
  simp only [Option.some_bind, Option.map_some', branchResult, modeReadI8, modeReadU8,
    hoperand]
  by_cases hg : g
  · subst hg
    simp only [if_pos trivial, branch, Mode.addCycle]
    by_cases hpage :
        i32toU16 ((c.program_counter : Int) + 2 + toI8 operand) &&& 0xFF00
          = (c.program_counter + 2) &&& 0xFF00
    · refine ⟨_, _, _, rfl, ?_, ?_⟩ <;> simp [hpage]
    · refine ⟨_, _, _, rfl, ?_, ?_⟩ <;> simp [hpage]
  · simp only [Bool.not_eq_true] at hg
    subst hg
    refine ⟨_, _, _, rfl, ?_, ?_⟩ <;> simp

def C2cart : Cart0 :=
  ⟨1, fun i => if i = 0xFD then 0xF0 else if i = 0xFE then 0x05 else 0⟩

def C2bus : CpuBus := ⟨fun _ => 0, some C2cart, 0⟩

def C2cpu : Cpu := { Cpu.new with program_counter := 0x80FD, status := 0x26 }

/-- C2: every branch instruction (BCC, BCS, BEQ, BNE, BMI, BPL, BVC, BVS)
costs its base 2 cycles when its condition is false, 3 cycles when taken to
the same page as the program counter after operand fetch, and 4 cycles when
taken across a page; and concretely, BEQ at PC = 0x80FD with relative
operand +0x05 and Z = 1 costs 4 cycles and leaves PC = 0x8104. -/
theorem branch_cycle_costs :
    (∀ (c : Cpu) (b : CpuBus) (opcode operand : Nat) (taken : Bool),
      (b.read c.program_counter).1 = opcode →
      branchCond opcode c = some taken →
      (((b.read c.program_counter).2.read (c.program_counter + 1)).2.read
        (c.program_counter + 1)).1 = operand →
      c.program_counter + 2 ≤ 0xFFFF →
      ∃ req c' b', fetchExec c b = some (req, c', b') ∧
        req = (if taken then
                 (if i32toU16 (((c.program_counter + 2 : Nat) : Int) + toI8 operand) &&& 0xFF00
                     = (c.program_counter + 2) &&& 0xFF00 then 3 else 4)
               else 2) ∧
        c'.program_counter =
          (if taken then i32toU16 (((c.program_counter + 2 : Nat) : Int) + toI8 operand)
           else c.program_counter + 2))
    ∧ ((fetchExec C2cpu C2bus).map (fun r => (r.1, r.2.1.program_counter))
        = some (4, 0x8104))
    ∧ C2cpu.program_counter = 0x80FD ∧ C2cpu.get_flag ZERO = true := by
  refine ⟨?_, by rfl, by rfl, by rfl⟩
  intro c b opcode operand taken hop hcond hoperand hpc
  unfold branchCond at hcond
  split at hcond
  · rename_i hopc
    subst hopc
    obtain rfl := Option.some.inj hcond
    refine fetchExec_branch c b 0x10 .BPL "BPL" _ operand hop rfl ?_ hoperand hpc
    intro c' b' m' hst
    simp only [execOp, BPL_eq]
    rw [show c'.get_flag NEGATIVE = c.get_flag NEGATIVE from by simp [Cpu.get_flag, hst]]
  · split at hcond
    · rename_i hopc
      subst hopc
      obtain rfl := Option.some.inj hcond
      refine fetchExec_branch c b 0x30 .BMI "BMI" _ operand hop rfl ?_ hoperand hpc
      intro c' b' m' hst
      simp only [execOp, BMI_eq]
      rw [show c'.get_flag NEGATIVE = c.get_flag NEGATIVE from by simp [Cpu.get_flag, hst]]
    · split at hcond
      · rename_i hopc
        subst hopc
        obtain rfl := Option.some.inj hcond
        refine fetchExec_branch c b 0x50 .BVC "BVC" _ operand hop rfl ?_ hoperand hpc
        intro c' b' m' hst
        simp only [execOp, BVC_eq]
        rw [show c'.get_flag OVERFLOW = c.get_flag OVERFLOW from by simp [Cpu.get_flag, hst]]
      · split at hcond
        · rename_i hopc
          subst hopc
          obtain rfl := Option.some.inj hcond
          refine fetchExec_branch c b 0x70 .BVS "BVS" _ operand hop rfl ?_ hoperand hpc
          intro c' b' m' hst
          simp only [execOp, BVS_eq]
          rw [show c'.get_flag OVERFLOW = c.get_flag OVERFLOW from by
            simp [Cpu.get_flag, hst]]
        · split at hcond
          · rename_i hopc
            subst hopc
            obtain rfl := Option.some.inj hcond
            refine fetchExec_branch c b 0x90 .BCC "BCC" _ operand hop rfl ?_ hoperand hpc
            intro c' b' m' hst
            simp only [execOp, BCC_eq]
            rw [show c'.get_flag CARRY = c.get_flag CARRY from by simp [Cpu.get_flag, hst]]
          · split at hcond
            · rename_i hopc
              subst hopc
              obtain rfl := Option.some.inj hcond
              refine fetchExec_branch c b 0xB0 .BCS "BCS" _ operand hop rfl ?_ hoperand hpc
              intro c' b' m' hst
              simp only [execOp, BCS_eq]
              rw [show c'.get_flag CARRY = c.get_flag CARRY from by simp [Cpu.get_flag, hst]]
            · split at hcond
              · rename_i hopc
                subst hopc
                obtain rfl := Option.some.inj hcond
                refine fetchExec_branch c b 0xD0 .BNE "BNE" _ operand hop rfl ?_ hoperand hpc
                intro c' b' m' hst
                simp only [execOp, BNE_eq]
                rw [show c'.get_flag ZERO = c.get_flag ZERO from by simp [Cpu.get_flag, hst]]
              · split at hcond
                · rename_i hopc
                  subst hopc
                  obtain rfl := Option.some.inj hcond
                  refine fetchExec_branch c b 0xF0 .BEQ "BEQ" _ operand hop rfl ?_ hoperand hpc
                  intro c' b' m' hst
                  simp only [execOp, BEQ_eq]
                  rw [show c'.get_flag ZERO = c.get_flag ZERO from by simp [Cpu.get_flag, hst]]
                · exact absurd hcond (by simp)

/-- Witness for C2, applying the universal branch-cost statement at the
claim's concrete scenario (BEQ `F0 05` at 0x80FD with Z set). -/
theorem branch_cycle_costs_witness :
    ∃ req c' b', fetchExec C2cpu C2bus = some (req, c', b') ∧ req = 4 ∧
      c'.program_counter = 0x8104 := by
  obtain ⟨req, c', b', hfe, hreq, hpcr⟩ := branch_cycle_costs.1 C2cpu C2bus 0xF0 0x05 true
    (by rfl) (by rfl) (by rfl) (by decide)
  refine ⟨req, c', b', hfe, ?_, ?_⟩
  · rw [hreq]
    decide
  · rw [hpcr]
    decide

/- ===== Claim C3 ===== -/

theorem get_flag_bit (c : Cpu) (k : Nat) : c.get_flag (2 ^ k) = c.status.testBit k := by
  unfold Cpu.get_flag
  cases hb : c.status.testBit k
  · have h : ¬ (0 < c.status &&& 2 ^ k) := fun hp =>
      by rw [(pos_and_two_pow c.status k).mp hp] at hb; cases hb
    simp [h]
  · simp [(pos_and_two_pow c.status k).mpr hb]

theorem get_flag_CARRY (c : Cpu) : c.get_flag CARRY = c.status.testBit 0 :=
  get_flag_bit c 0

theorem get_flag_ZERO (c : Cpu) : c.get_flag ZERO = c.status.testBit 1 :=
  get_flag_bit c 1

theorem get_flag_OVERFLOW (c : Cpu) : c.get_flag OVERFLOW = c.status.testBit 6 :=
  get_flag_bit c 6

theorem get_flag_NEGATIVE (c : Cpu) : c.get_flag NEGATIVE = c.status.testBit 7 :=
  get_flag_bit c 7

@[simp] theorem set_flag_accumulator (c : Cpu) (f : Nat) (v : Bool) :
    (c.set_flag f v).accumulator = c.accumulator := by
  unfold Cpu.set_flag
  split <;> rfl

@[simp] theorem set_flag_x (c : Cpu) (f : Nat) (v : Bool) :
    (c.set_flag f v).x = c.x := by
  unfold Cpu.set_flag
  split <;> rfl

@[simp] theorem set_flag_y (c : Cpu) (f : Nat) (v : Bool) :
    (c.set_flag f v).y = c.y := by
  unfold Cpu.set_flag
  split <;> rfl

@[simp] theorem set_flag_program_counter (c : Cpu) (f : Nat) (v : Bool) :
    (c.set_flag f v).program_counter = c.program_counter := by
  unfold Cpu.set_flag
  split <;> rfl

@[simp] theorem set_flag_stack_pointer (c : Cpu) (f : Nat) (v : Bool) :
    (c.set_flag f v).stack_pointer = c.stack_pointer := by
  unfold Cpu.set_flag
  split <;> rfl

/-- The result state of `SBC`, field by field. -/
theorem SBC_spec (c : Cpu) (b : CpuBus) (m : Mode) :
    (SBC c b m).1.accumulator
      = (c.accumulator + u8not (modeReadU8 m c b).1 + (c.get_flag CARRY).toNat) % 256
    ∧ (SBC c b m).1.status.testBit 0
      = decide (0xFF < c.accumulator + u8not (modeReadU8 m c b).1 + (c.get_flag CARRY).toNat)
    ∧ (SBC c b m).1.status.testBit 1
      = decide ((c.accumulator + u8not (modeReadU8 m c b).1 + (c.get_flag CARRY).toNat) &&& 0xFF = 0)
    ∧ (SBC c b m).1.status.testBit 7
      = decide (0 < (c.accumulator + u8not (modeReadU8 m c b).1 + (c.get_flag CARRY).toNat) &&& 0x80)
    ∧ (SBC c b m).1.status.testBit 6
      = decide (0 < (c.accumulator
            ^^^ (c.accumulator + u8not (modeReadU8 m c b).1 + (c.get_flag CARRY).toNat) % 256)
          &&& (c.accumulator ^^^ (modeReadU8 m c b).1) &&& 0x80) := by
  refine ⟨by simp [SBC], ?_, ?_, ?_, ?_⟩
  · dsimp only [SBC]
    rw [set_flag_testBit_of_ne _ _ _ _ (by decide) (by decide),
      set_flag_testBit_of_ne _ _ _ _ (by decide) (by decide),
      set_flag_testBit_of_ne _ _ _ _ (by decide) (by decide),
      set_flag_testBit_self _ _ _ _ (by decide) (by decide)]
  · dsimp only [SBC]
    rw [set_flag_testBit_of_ne _ _ _ _ (by decide) (by decide),
      set_flag_testBit_of_ne _ _ _ _ (by decide) (by decide),
      set_flag_testBit_self _ _ _ _ (by decide) (by decide)]
  · dsimp only [SBC]
    rw [set_flag_testBit_of_ne _ _ _ _ (by decide) (by decide),
      set_flag_testBit_self _ _ _ _ (by decide) (by decide)]
  · dsimp only [SBC]
    rw [set_flag_testBit_self _ _ _ _ (by decide) (by decide)]
    simp only [set_flag_accumulator]

/-- The result state of `ADC`, field by field. -/
theorem ADC_spec (c : Cpu) (b : CpuBus) (m : Mode) :
    (ADC c b m).1.accumulator
      = (c.accumulator + (modeReadU8 m c b).1 + (c.get_flag CARRY).toNat) % 256
    ∧ (ADC c b m).1.status.testBit 0
      = decide (0xFF < c.accumulator + (modeReadU8 m c b).1 + (c.get_flag CARRY).toNat)
    ∧ (ADC c b m).1.status.testBit 1
      = decide ((c.accumulator + (modeReadU8 m c b).1 + (c.get_flag CARRY).toNat) % 256 = 0)
    ∧ (ADC c b m).1.status.testBit 7
      = decide (0 < (c.accumulator + (modeReadU8 m c b).1 + (c.get_flag CARRY).toNat) % 256 &&& 0x80)
    ∧ (ADC c b m).1.status.testBit 6
      = decide (0 < ((c.accumulator + (modeReadU8 m c b).1 + (c.get_flag CARRY).toNat) % 256
            ^^^ c.accumulator)
          &&& ((c.accumulator + (modeReadU8 m c b).1 + (c.get_flag CARRY).toNat) % 256
            ^^^ (modeReadU8 m c b).1) &&& 0x80) := by
  refine ⟨by simp [ADC], ?_, ?_, ?_, ?_⟩
  · dsimp only [ADC]
    rw [set_flag_testBit_of_ne _ _ _ _ (by decide) (by decide),
      set_flag_testBit_of_ne _ _ _ _ (by decide) (by decide),
      set_flag_testBit_of_ne _ _ _ _ (by decide) (by decide),
      set_flag_testBit_self _ _ _ _ (by decide) (by decide)]
  · dsimp only [ADC]
    rw [set_flag_testBit_of_ne _ _ _ _ (by decide) (by decide),
      set_flag_testBit_of_ne _ _ _ _ (by decide) (by decide),
      set_flag_testBit_self _ _ _ _ (by decide) (by decide)]
  · dsimp only [ADC]
    rw [set_flag_testBit_self _ _ _ _ (by decide) (by decide)]
  · dsimp only [ADC]
    rw [set_flag_testBit_of_ne _ _ _ _ (by decide) (by decide),
      set_flag_testBit_self _ _ _ _ (by decide) (by decide)]
    simp only [set_flag_accumulator]

theorem pos128_iff (x : Nat) : 0 < x &&& 128 ↔ x.testBit 7 := by
  have h := pos_and_two_pow x 7
  norm_num at h
  exact h

/-- C3: for every starting CPU state and operand byte `M`, `SBC` with
operand `M` produces the same accumulator and the same C, Z, V, N flags as
`ADC` with operand `~M`, and `SBC`'s overflow flag equals
`((A ^ r) & (~M ^ r) & 0x80) != 0` with `r` the 8-bit result. -/
theorem SBC_matches_ADC_of_complement (c : Cpu) (b1 b2 : CpuBus) (m1 m2 : Mode) (M : Nat)
    (hM : M < 256)
    (h1 : (modeReadU8 m1 c b1).1 = M)
    (h2 : (modeReadU8 m2 c b2).1 = M ^^^ 255) :
    (SBC c b1 m1).1.accumulator = (ADC c b2 m2).1.accumulator
    ∧ (SBC c b1 m1).1.get_flag CARRY = (ADC c b2 m2).1.get_flag CARRY
    ∧ (SBC c b1 m1).1.get_flag ZERO = (ADC c b2 m2).1.get_flag ZERO
    ∧ (SBC c b1 m1).1.get_flag OVERFLOW = (ADC c b2 m2).1.get_flag OVERFLOW
    ∧ (SBC c b1 m1).1.get_flag NEGATIVE = (ADC c b2 m2).1.get_flag NEGATIVE
    ∧ (SBC c b1 m1).1.get_flag OVERFLOW
      = decide (0 < (c.accumulator ^^^ (SBC c b1 m1).1.accumulator)
          &&& ((M ^^^ 255) ^^^ (SBC c b1 m1).1.accumulator) &&& 0x80) := by
  obtain ⟨sa, s0, s1, s7, s6⟩ := SBC_spec c b1 m1
  obtain ⟨da, d0, d1, d7, d6⟩ := ADC_spec c b2 m2
  rw [h1] at sa s0 s1 s7 s6
  rw [h2] at da d0 d1 d7 d6
  rw [show u8not M = M ^^^ 255 from rfl] at sa s0 s1 s7 s6
  refine ⟨by rw [sa, da], ?_, ?_, ?_, ?_, ?_⟩
  · rw [get_flag_CARRY, get_flag_CARRY, s0, d0]
  · rw [get_flag_ZERO, get_flag_ZERO, s1, d1]
    simp [and_255_eq_mod]
  · rw [get_flag_OVERFLOW, get_flag_OVERFLOW, s6, d6]
    rw [decide_eq_decide, pos128_iff, pos128_iff]
    simp only [Nat.testBit_and, Nat.testBit_xor, testBit_255]
    cases hA7 : c.accumulator.testBit 7 <;>
      cases hM7 : M.testBit 7 <;>
        cases hR7 : ((c.accumulator + (M ^^^ 255) + (c.get_flag CARRY).toNat) % 256).testBit 7 <;>
          simp
  · rw [get_flag_NEGATIVE, get_flag_NEGATIVE, s7, d7]
    rw [decide_eq_decide, pos128_iff, pos128_iff]
    rw [show (256 : Nat) = 2 ^ 8 from by norm_num, Nat.testBit_mod_two_pow]
    simp
  · rw [get_flag_OVERFLOW, s6, sa]
    rw [decide_eq_decide, pos128_iff, pos128_iff]
    simp only [Nat.testBit_and, Nat.testBit_xor, testBit_255]
    cases hA7 : c.accumulator.testBit 7 <;>
      cases hM7 : M.testBit 7 <;>
        cases hR7 : ((c.accumulator + (M ^^^ 255) + (c.get_flag CARRY).toNat) % 256).testBit 7 <;>
          simp

/- ===== Claim C7 ===== -/

theorem try_get_next_n_ok (l : List Nat) (n : Nat) (h : n ≤ l.length) :
    try_get_next_n l n = .ok (l.take n, l.drop n) := by
  unfold try_get_next_n
  rw [if_neg (by omega)]

theorem try_get_next_n_err (l : List Nat) (n : Nat) (h : l.length < n) :
    try_get_next_n l n = .error (.NotEnoughBytesError n) := by
  unfold try_get_next_n
  rw [if_pos h]

theorem try_get_next_cons (v : Nat) (l : List Nat) : try_get_next (v :: l) = .ok (v, l) := rfl

theorem try_get_next_error (l : List Nat) (e : CartrigeParseError)
    (h : try_get_next l = .error e) : e = .NotEnoughBytesError 1 := by
  cases l <;> simp [try_get_next] at h
  exact h.symm

theorem try_get_next_n_error (l : List Nat) (n : Nat) (e : CartrigeParseError)
    (h : try_get_next_n l n = .error e) : e = .NotEnoughBytesError n := by
  unfold try_get_next_n at h
  split at h
  · exact (Except.error.inj h).symm
  · cases h

theorem from_header_error (hd : Header) (e : CartrigeParseError)
    (h : from_header hd = .error e) : e = .UnknownMapperIdError hd.get_mapper_id := by
  unfold from_header at h
  split at h
  · cases h
  · exact (Except.error.inj h).symm

def C7bytes : List Nat := [0x4E, 0x45, 0x53, 0x1A, 1, 0, 0, 0, 0, 0]

/-- C7 counterexample: a 10-byte input whose magic is right but whose
16-byte header is cut short fails with `NotEnoughBytesError 1` — the size of
the failing one-byte sub-request — not with `NotEnoughBytesError 16` as the
claim's "n is the number of bytes requested by that segment" requires for
the header segment. -/
theorem from_bytes_short_header_counterexample :
    Cartrige.from_bytes C7bytes = .error (.NotEnoughBytesError 1) ∧
    CartrigeParseError.NotEnoughBytesError 1 ≠ .NotEnoughBytesError 16 := by
  constructor
  · rfl
  · decide

theorem from_bytes_short (bytes : List Nat) (h : bytes.length < 4) :
    Cartrige.from_bytes bytes = .error (.NotEnoughBytesError 4) := by
  simp [Cartrige.from_bytes, try_get_next_n_err _ _ h, bind, Except.bind]

theorem from_bytes_magic_of_ne (bytes : List Nat) (h4 : 4 ≤ bytes.length)
    (hne : bytes.take 4 ≠ NES_MAGIC_NUMBERS) :
    Cartrige.from_bytes bytes = .error .MissingMagicNumbersError := by
  simp [Cartrige.from_bytes, try_get_next_n_ok _ _ h4, hne, bind, Except.bind,
    throw, throwThe, MonadExceptOf.throw]

theorem from_bytes_no_magic_of_eq (bytes : List Nat) (h4 : 4 ≤ bytes.length)
    (heq : bytes.take 4 = NES_MAGIC_NUMBERS) :
    Cartrige.from_bytes bytes ≠ .error .MissingMagicNumbersError := by
  intro h
  simp [Cartrige.from_bytes, try_get_next_n_ok _ _ h4, heq, bind, Except.bind,
    pure, Except.pure] at h
  repeat' split at h
  all_goals try simp at h
  all_goals subst h
  all_goals first
    | exact absurd (try_get_next_error _ _ (by assumption)) (by simp)
    | exact absurd (try_get_next_n_error _ _ _ (by assumption)) (by simp)
    | exact absurd (from_header_error _ _ (by assumption)) (by simp)

theorem from_bytes_singles_err (bytes : List Nat) (heq : bytes.take 4 = NES_MAGIC_NUMBERS)
    (h4 : 4 ≤ bytes.length) (hlt : bytes.length < 11) :
    Cartrige.from_bytes bytes = .error (.NotEnoughBytesError 1) := by
  rcases bytes with _ | ⟨b0, rest⟩
  · simp at h4
  rcases rest with _ | ⟨b1, rest⟩
  · simp at h4
  rcases rest with _ | ⟨b2, rest⟩
  · simp at h4
  rcases rest with _ | ⟨b3, rest⟩
  · simp at h4
  simp [NES_MAGIC_NUMBERS] at heq
  obtain ⟨rfl, rfl, rfl, rfl⟩ := heq
  simp only [List.length_cons] at hlt
  simp (disch := try simp only [List.length_cons]; omega) [Cartrige.from_bytes,
    try_get_next_n_ok, try_get_next_cons, bind, Except.bind, pure, Except.pure,
    NES_MAGIC_NUMBERS]
  rcases rest with _ | ⟨a1, rest⟩
  · simp [try_get_next]
  simp only [try_get_next_cons]
  rcases rest with _ | ⟨a2, rest⟩
  · simp [try_get_next]
  simp only [try_get_next_cons]
  rcases rest with _ | ⟨a3, rest⟩
  · simp [try_get_next]
  simp only [try_get_next_cons]
  rcases rest with _ | ⟨a4, rest⟩
  · simp [try_get_next]
  simp only [try_get_next_cons]
  rcases rest with _ | ⟨a5, rest⟩
  · simp [try_get_next]
  simp only [try_get_next_cons]
  rcases rest with _ | ⟨a6, rest⟩
  · simp [try_get_next]
  simp only [try_get_next_cons]
  rcases rest with _ | ⟨a7, rest⟩
  · simp [try_get_next]
  simp only [List.length_cons] at hlt
  omega

theorem from_bytes_pads_err (bytes : List Nat) (heq : bytes.take 4 = NES_MAGIC_NUMBERS)
    (h11 : 11 ≤ bytes.length) (hlt : bytes.length < 16) :
    Cartrige.from_bytes bytes = .error (.NotEnoughBytesError 5) := by
  rcases bytes with _ | ⟨b0, rest⟩
  · simp at h11
  rcases rest with _ | ⟨b1, rest⟩
  · simp at h11
  rcases rest with _ | ⟨b2, rest⟩
  · simp at h11
  rcases rest with _ | ⟨b3, rest⟩
  · simp at h11
  simp [NES_MAGIC_NUMBERS] at heq
  obtain ⟨rfl, rfl, rfl, rfl⟩ := heq
  simp only [List.length_cons] at h11 hlt
  rcases rest with _ | ⟨a1, rest⟩
  · simp only [List.length_nil] at h11; omega
  rcases rest with _ | ⟨a2, rest⟩
  · simp only [List.length_nil, List.length_cons] at h11; omega
  rcases rest with _ | ⟨a3, rest⟩
  · simp only [List.length_nil, List.length_cons] at h11; omega
  rcases rest with _ | ⟨a4, rest⟩
  · simp only [List.length_nil, List.length_cons] at h11; omega
  rcases rest with _ | ⟨a5, rest⟩
  · simp only [List.length_nil, List.length_cons] at h11; omega
  rcases rest with _ | ⟨a6, rest⟩
  · simp only [List.length_nil, List.length_cons] at h11; omega
  rcases rest with _ | ⟨a7, rest⟩
  · simp only [List.length_nil, List.length_cons] at h11; omega
  simp only [List.length_cons] at h11 hlt
  simp (disch := try simp only [List.length_cons]; omega) [Cartrige.from_bytes,
    try_get_next_n_ok, try_get_next_cons, bind, Except.bind, pure, Except.pure,
    NES_MAGIC_NUMBERS]
  rw [try_get_next_n_err rest 5 (by omega)]

theorem from_bytes_prg_err (prg chr f6 f7 f8 f9 f10 p1 p2 p3 p4 p5 : Nat) (rest : List Nat)
    (ht : (Header.mk prg chr f6 f7 f8 f9 f10).get_has_trainer = false)
    (hl : rest.length < 16384 * prg) :
    Cartrige.from_bytes (0x4E::0x45::0x53::0x1A::prg::chr::f6::f7::f8::f9::f10::p1::p2::p3::p4::p5::rest)
      = .error (.NotEnoughBytesError (16384 * prg)) := by
  simp (disch := try simp only [List.length_cons]; omega) [Cartrige.from_bytes,
    try_get_next_n_ok, try_get_next_n_err, try_get_next_cons, ht, bind, Except.bind, pure,
    Except.pure, NES_MAGIC_NUMBERS]
  rw [try_get_next_n_err rest (16384 * prg) hl]

theorem from_bytes_chr_err (prg chr f6 f7 f8 f9 f10 p1 p2 p3 p4 p5 : Nat) (rest : List Nat)
    (ht : (Header.mk prg chr f6 f7 f8 f9 f10).get_has_trainer = false)
    (hp : 16384 * prg ≤ rest.length)
    (hl : rest.length - 16384 * prg < 8192 * chr) :
    Cartrige.from_bytes (0x4E::0x45::0x53::0x1A::prg::chr::f6::f7::f8::f9::f10::p1::p2::p3::p4::p5::rest)
      = .error (.NotEnoughBytesError (8192 * chr)) := by
  simp (disch := try simp only [List.length_cons]; omega) [Cartrige.from_bytes,
    try_get_next_n_ok, try_get_next_n_err, try_get_next_cons, ht, bind, Except.bind, pure,
    Except.pure, NES_MAGIC_NUMBERS]
  rw [try_get_next_n_ok rest (16384 * prg) hp]
  simp only []
  rw [try_get_next_n_err (rest.drop (16384 * prg)) (8192 * chr) (by simp; omega)]

theorem from_bytes_success (prg chr f6 f7 f8 f9 f10 p1 p2 p3 p4 p5 : Nat) (rest : List Nat)
    (ht : (Header.mk prg chr f6 f7 f8 f9 f10).get_has_trainer = false)
    (hid : (Header.mk prg chr f6 f7 f8 f9 f10).get_mapper_id = 0)
    (hl : 16384 * prg + 8192 * chr ≤ rest.length) :
    Cartrige.from_bytes (0x4E::0x45::0x53::0x1A::prg::chr::f6::f7::f8::f9::f10::p1::p2::p3::p4::p5::rest)
      = .ok ⟨⟨prg, chr, f6, f7, f8, f9, f10⟩, rest.take (16384 * prg),
          (rest.drop (16384 * prg)).take (8192 * chr)⟩ := by
  simp (disch := try simp only [List.length_cons]; omega) [Cartrige.from_bytes,
    try_get_next_n_ok, try_get_next_n_err, try_get_next_cons, ht, bind, Except.bind, pure,
    Except.pure, NES_MAGIC_NUMBERS]
  rw [try_get_next_n_ok rest (16384 * prg) (by omega)]
  simp only []
  rw [try_get_next_n_ok (rest.drop (16384 * prg)) (8192 * chr) (by simp; omega)]
  simp [from_header, hid]

theorem from_bytes_trainer_err (prg chr f6 f7 f8 f9 f10 p1 p2 p3 p4 p5 : Nat) (rest : List Nat)
    (ht : (Header.mk prg chr f6 f7 f8 f9 f10).get_has_trainer = true)
    (hl : rest.length < 512) :
    Cartrige.from_bytes (0x4E::0x45::0x53::0x1A::prg::chr::f6::f7::f8::f9::f10::p1::p2::p3::p4::p5::rest)
      = .error (.NotEnoughBytesError 512) := by
  simp (disch := try simp only [List.length_cons]; omega) [Cartrige.from_bytes,
    try_get_next_n_ok, try_get_next_cons, ht, bind, Except.bind, pure,
    Except.pure, NES_MAGIC_NUMBERS]
  rw [try_get_next_n_err rest 512 hl]

theorem from_bytes_trainer_success (prg chr f6 f7 f8 f9 f10 p1 p2 p3 p4 p5 : Nat)
    (rest : List Nat)
    (ht : (Header.mk prg chr f6 f7 f8 f9 f10).get_has_trainer = true)
    (hid : (Header.mk prg chr f6 f7 f8 f9 f10).get_mapper_id = 0)
    (hl : 512 + 16384 * prg + 8192 * chr ≤ rest.length) :
    Cartrige.from_bytes (0x4E::0x45::0x53::0x1A::prg::chr::f6::f7::f8::f9::f10::p1::p2::p3::p4::p5::rest)
      = .ok ⟨⟨prg, chr, f6, f7, f8, f9, f10⟩, (rest.drop 512).take (16384 * prg),
          ((rest.drop 512).drop (16384 * prg)).take (8192 * chr)⟩ := by
  simp (disch := try simp only [List.length_cons]; omega) [Cartrige.from_bytes,
    try_get_next_n_ok, try_get_next_cons, ht, bind, Except.bind, pure,
    Except.pure, NES_MAGIC_NUMBERS]
  rw [try_get_next_n_ok rest 512 (by omega)]
  simp only []
  rw [try_get_next_n_ok (rest.drop 512) (16384 * prg) (by simp; omega)]
  simp only []
  rw [try_get_next_n_ok ((rest.drop 512).drop (16384 * prg)) (8192 * chr) (by simp; omega)]
  simp [from_header, hid]

/-- C7: amended.  Cartridge parsing fails with `MissingMagicNumbersError`
exactly when there are at least four bytes and they differ from
`4E 45 53 1A` (with fewer than four bytes the error is
`NotEnoughBytesError 4`, not `MissingMagicNumbersError`).  The 16-byte
header is not requested as one segment: it is consumed as a 4-byte magic
read, seven 1-byte reads and one 5-byte read, so a truncated header fails
with `NotEnoughBytesError 1` (5 to 10 bytes present) or
`NotEnoughBytesError 5` (11 to 15 bytes present).  The trainer, PRG and
CHR segments do fail with `NotEnoughBytesError` of the full requested
size (512, 16384*prg_banks, 8192*chr_banks), and on success `prg_mem` and
`chr_mem` are exactly the consumed byte ranges. -/
theorem from_bytes_segment_errors :
    (∀ bytes : List Nat,
      Cartrige.from_bytes bytes = .error .MissingMagicNumbersError ↔
        4 ≤ bytes.length ∧ bytes.take 4 ≠ NES_MAGIC_NUMBERS) ∧
    (∀ bytes : List Nat, bytes.length < 4 →
      Cartrige.from_bytes bytes = .error (.NotEnoughBytesError 4)) ∧
    (∀ bytes : List Nat, bytes.take 4 = NES_MAGIC_NUMBERS → 4 ≤ bytes.length →
      bytes.length < 11 →
      Cartrige.from_bytes bytes = .error (.NotEnoughBytesError 1)) ∧
    (∀ bytes : List Nat, bytes.take 4 = NES_MAGIC_NUMBERS → 11 ≤ bytes.length →
      bytes.length < 16 →
      Cartrige.from_bytes bytes = .error (.NotEnoughBytesError 5)) ∧
    (∀ prg chr f6 f7 f8 f9 f10 p1 p2 p3 p4 p5 : Nat, ∀ rest : List Nat,
      (Header.mk prg chr f6 f7 f8 f9 f10).get_has_trainer = true → rest.length < 512 →
      Cartrige.from_bytes
          (0x4E::0x45::0x53::0x1A::prg::chr::f6::f7::f8::f9::f10::p1::p2::p3::p4::p5::rest)
        = .error (.NotEnoughBytesError 512)) ∧
    (∀ prg chr f6 f7 f8 f9 f10 p1 p2 p3 p4 p5 : Nat, ∀ rest : List Nat,
      (Header.mk prg chr f6 f7 f8 f9 f10).get_has_trainer = false →
      rest.length < 16384 * prg →
      Cartrige.from_bytes
          (0x4E::0x45::0x53::0x1A::prg::chr::f6::f7::f8::f9::f10::p1::p2::p3::p4::p5::rest)
        = .error (.NotEnoughBytesError (16384 * prg))) ∧
    (∀ prg chr f6 f7 f8 f9 f10 p1 p2 p3 p4 p5 : Nat, ∀ rest : List Nat,
      (Header.mk prg chr f6 f7 f8 f9 f10).get_has_trainer = false →
      16384 * prg ≤ rest.length → rest.length - 16384 * prg < 8192 * chr →
      Cartrige.from_bytes
          (0x4E::0x45::0x53::0x1A::prg::chr::f6::f7::f8::f9::f10::p1::p2::p3::p4::p5::rest)
        = .error (.NotEnoughBytesError (8192 * chr))) ∧
    (∀ prg chr f6 f7 f8 f9 f10 p1 p2 p3 p4 p5 : Nat, ∀ rest : List Nat,
      (Header.mk prg chr f6 f7 f8 f9 f10).get_has_trainer = false →
      (Header.mk prg chr f6 f7 f8 f9 f10).get_mapper_id = 0 →
      16384 * prg + 8192 * chr ≤ rest.length →
      Cartrige.from_bytes
          (0x4E::0x45::0x53::0x1A::prg::chr::f6::f7::f8::f9::f10::p1::p2::p3::p4::p5::rest)
        = .ok ⟨⟨prg, chr, f6, f7, f8, f9, f10⟩, rest.take (16384 * prg),
            (rest.drop (16384 * prg)).take (8192 * chr)⟩) ∧
    (∀ prg chr f6 f7 f8 f9 f10 p1 p2 p3 p4 p5 : Nat, ∀ rest : List Nat,
      (Header.mk prg chr f6 f7 f8 f9 f10).get_has_trainer = true →
      (Header.mk prg chr f6 f7 f8 f9 f10).get_mapper_id = 0 →
      512 + 16384 * prg + 8192 * chr ≤ rest.length →
      Cartrige.from_bytes
          (0x4E::0x45::0x53::0x1A::prg::chr::f6::f7::f8::f9::f10::p1::p2::p3::p4::p5::rest)
        = .ok ⟨⟨prg, chr, f6, f7, f8, f9, f10⟩, (rest.drop 512).take (16384 * prg),
            ((rest.drop 512).drop (16384 * prg)).take (8192 * chr)⟩) := by
  refine ⟨?_, from_bytes_short, from_bytes_singles_err, from_bytes_pads_err,
    from_bytes_trainer_err, from_bytes_prg_err, from_bytes_chr_err, from_bytes_success,
    from_bytes_trainer_success⟩
  intro bytes
  constructor
  · intro h
    by_cases h4 : 4 ≤ bytes.length
    · exact ⟨h4, fun heq => from_bytes_no_magic_of_eq bytes h4 heq h⟩
    · rw [from_bytes_short bytes (by omega)] at h
      simp at h
  · rintro ⟨h4, hne⟩
    exact from_bytes_magic_of_ne bytes h4 hne

theorem from_bytes_segment_errors_witness :
    Cartrige.from_bytes [1, 2] = .error (.NotEnoughBytesError 4) :=
  from_bytes_segment_errors.2.1 [1, 2] (by decide)

def C3cpu : Cpu := { Cpu.new with accumulator := 0x50, status := 0x25 }

def C3bus1 : CpuBus := ⟨fun _ => 0xB0, none, 0⟩

def C3bus2 : CpuBus := ⟨fun _ => 0x4F, none, 0⟩

def C3mode : Mode := ⟨.memory 0, 1, 0, ""⟩

theorem SBC_matches_ADC_of_complement_witness :
    (SBC C3cpu C3bus1 C3mode).1.accumulator = (ADC C3cpu C3bus2 C3mode).1.accumulator
    ∧ (SBC C3cpu C3bus1 C3mode).1.get_flag CARRY = (ADC C3cpu C3bus2 C3mode).1.get_flag CARRY
    ∧ (SBC C3cpu C3bus1 C3mode).1.get_flag ZERO = (ADC C3cpu C3bus2 C3mode).1.get_flag ZERO
    ∧ (SBC C3cpu C3bus1 C3mode).1.get_flag OVERFLOW
      = (ADC C3cpu C3bus2 C3mode).1.get_flag OVERFLOW
    ∧ (SBC C3cpu C3bus1 C3mode).1.get_flag NEGATIVE
      = (ADC C3cpu C3bus2 C3mode).1.get_flag NEGATIVE
    ∧ (SBC C3cpu C3bus1 C3mode).1.get_flag OVERFLOW
      = decide (0 < (C3cpu.accumulator ^^^ (SBC C3cpu C3bus1 C3mode).1.accumulator)
          &&& ((0xB0 ^^^ 255) ^^^ (SBC C3cpu C3bus1 C3mode).1.accumulator) &&& 0x80) :=
  SBC_matches_ADC_of_complement C3cpu C3bus1 C3bus2 C3mode C3mode 0xB0 (by decide) rfl rfl

/- ===== Claim C1 ===== -/

/-- C1 counterexample: executing `BRK` from a state whose B bit (0x10) is
clear leaves B set in the live status register afterwards — `operations.rs`
calls `cpu.set_flag(BREAK, true)` on the live register before pushing — so
B=1 does not appear only in the pushed copies. -/
theorem brk_sets_live_break_counterexample :
    Cpu.new.status.testBit 4 = false ∧
    (BRK Cpu.new ⟨fun _ => 0, none, 0⟩ ⟨.implicit, 0, 0, ""⟩).map
      (fun r => r.1.status.testBit 4) = some true :=
  ⟨by decide, rfl⟩

/-- C1: amended.  For every instruction other than `BRK` (opcode 0x00),
executing from a state with the B bit (0x10) clear leaves it clear in the
live status register; `PLP` and `RTI` force B clear in the value they pop;
`PHP` pushes `P | B | U` (B set) onto the stack; but `BRK` sets B in the
live status register itself, not only in the pushed copy. -/
theorem break_flag_discipline :
    (∀ c b req c' b', BusWF b → (b.read c.program_counter).1 ≠ 0 →
        fetchExec c b = some (req, c', b') →
        c.status.testBit 4 = false → c'.status.testBit 4 = false)
    ∧ (∀ c b m, (PLP c b m).1.status.testBit 4 = false)
    ∧ (∀ c b m, (RTI c b m).1.status.testBit 4 = false)
    ∧ (∀ c b m, c.stack_pointer < 256 →
        ((PHP c b m).2.1.read (0x100 + c.stack_pointer)).1
          = (c.status ||| BREAK ||| UNUSED)
        ∧ ((PHP c b m).2.1.read (0x100 + c.stack_pointer)).1.testBit 4 = true)
    ∧ (∀ c b m r, BRK c b m = some r → r.1.status.testBit 4 = true) := by
  refine ⟨?_, PLP_bit4, RTI_bit4, ?_, ?_⟩
  · intro c b req c' b' hWF hop hfe hB
    have hlt := read_lt_256 b c.program_counter hWF
    have hne := lookup_brk_only (b.read c.program_counter).1 hlt hop
    simp only [fetchExec, Option.bind_eq_some, Option.map_eq_some'] at hfe
    obtain ⟨pc1, hpc1, rm, hrm, pc2, hpc2, res, hex, hres⟩ := hfe
    simp only [Prod.mk.injEq] at hres
    obtain ⟨-, hc', -⟩ := hres
    subst hc'
    exact execOp_bit4_clear _ _ _ _ _ hne hex hB
  · intro c b m hsp
    have hv : ((PHP c b m).2.1.read (0x100 + c.stack_pointer)).1
        = (c.status ||| BREAK ||| UNUSED) := by
      have h8 : 256 + c.stack_pointer < 8192 := by omega
      simp [PHP, Cpu.push_stack, CpuBus.write, CpuBus.read, h8]
    refine ⟨hv, ?_⟩
    rw [hv]
    simp only [Nat.testBit_or]
    rw [show (BREAK).testBit 4 = true from by decide]
    simp
  · intro c b m r hbrk
    simp only [BRK, Option.bind_eq_some, Option.map_eq_some'] at hbrk
    obtain ⟨pc1, hpc1, rr, hrr, hres⟩ := hbrk
    subst hres
    simp only [push_stack_status, push_stack_u16_status]
    rw [set_flag_testBit_self _ _ _ _ (by decide) (by decide)]

def C1cpu : Cpu := Cpu.new

def C1bus : CpuBus := ⟨fun _ => 0xEA, none, 0⟩

theorem break_flag_discipline_witness :
    ({ C1cpu with program_counter := 1 } : Cpu).status.testBit 4 = false := by
  have hWF : BusWF C1bus := by
    refine ⟨fun a => ?_, by decide, fun cc hcc => Option.noConfusion hcc⟩
    show (0xEA : Nat) < 256
    decide
  exact break_flag_discipline.1 C1cpu C1bus 2 { C1cpu with program_counter := 1 }
    { C1bus with last_read := 0xEA } hWF (by decide) rfl (by decide)
